import Mathlib

/-!
Shallow embedding of the ghostty-web canvas renderer (src/lib/renderer.ts)
and proofs about the claims of its specification.

Pixel quantities are modelled as rationals; the JavaScript helpers
Math.round, Math.floor and Math.ceil become jround, jfloor and jceil.
Drawing commands issued to the 2D context are reified as a list of DrawOp
values carrying the parameters in effect at the time of the call.
-/

namespace GhosttyWeb

/-- JavaScript Math.round on a rational: floor of x + 1/2. -/
def jround (x : ℚ) : ℚ := ((⌊x + 1/2⌋ : ℤ) : ℚ)

/-- JavaScript Math.floor on a rational. -/
def jfloor (x : ℚ) : ℚ := ((⌊x⌋ : ℤ) : ℚ)

/-- JavaScript Math.ceil on a rational. -/
def jceil (x : ℚ) : ℚ := ((⌈x⌉ : ℤ) : ℚ)

/-- Font metrics in CSS pixels (renderer.ts FontMetrics). -/
structure FontMetrics where
  width : ℚ
  height : ℚ
  baseline : ℚ
deriving Repr, DecidableEq

/-- Theme colors consumed by the embedded drawing procedures. -/
structure Theme where
  background : String
  cursor : String
  selectionBackground : String
  selectionForeground : String
deriving Repr, DecidableEq

/-- A terminal cell as delivered by the emulator (types.ts GhosttyCell). -/
structure GhosttyCell where
  codepoint : ℕ
  grapheme_len : ℕ
  width : ℕ
  fg_r : ℕ
  fg_g : ℕ
  fg_b : ℕ
  bg_r : ℕ
  bg_g : ℕ
  bg_b : ℕ
  flags : ℕ
  hyperlink_id : ℕ
deriving Repr, DecidableEq

/- Modelled from the spec: the CellFlags bitfield of types.ts is not under
src/, so the bits BOLD, ITALIC, UNDERLINE, STRIKETHROUGH, INVERSE, FAINT,
BLINK and INVISIBLE are assigned distinct powers of two; the renderer only
tests individual bits, so the exact values are immaterial. -/
namespace CellFlags

def BOLD : ℕ := 1
def ITALIC : ℕ := 2
def UNDERLINE : ℕ := 4
def STRIKETHROUGH : ℕ := 8
def INVERSE : ℕ := 16
def FAINT : ℕ := 32
def BLINK : ℕ := 64
def INVISIBLE : ℕ := 128

end CellFlags

/-- Reified drawing command, carrying the context state in effect when the
call was made (fill or stroke style, line width, global alpha). Arc angles
are stored in units of pi. -/
inductive DrawOp where
  | fillRect (x y w h : ℚ) (style : String) (alpha : ℚ)
  | strokeLine (x1 y1 x2 y2 : ℚ) (style : String) (lineWidth : ℚ) (alpha : ℚ)
  | fillText (text : String) (x y : ℚ) (style : String) (font : String) (alpha : ℚ)
  | fillCircle (cx cy r : ℚ) (style : String) (alpha : ℚ)
  | fillTriangle (x1 y1 x2 y2 x3 y3 : ℚ) (style : String) (alpha : ℚ)
  | strokeArc (cx cy r startTurn endTurn : ℚ) (style : String) (lineWidth : ℚ) (alpha : ℚ)
deriving Repr, DecidableEq

/-- Test for the fillRect constructor. -/
def DrawOp.isFillRect : DrawOp → Bool
  | .fillRect _ _ _ _ _ _ => true
  | _ => false

/-- Test for the strokeLine constructor. -/
def DrawOp.isStrokeLine : DrawOp → Bool
  | .strokeLine _ _ _ _ _ _ _ => true
  | _ => false

/-- Color string helper rgbToCSS of renderer.ts. -/
def rgbToCSS (r g b : ℕ) : String :=
  "rgb(" ++ toString r ++ ", " ++ toString g ++ ", " ++ toString b ++ ")"

/-- Check if a codepoint is a box-drawing character (U+2500-257F). -/
def isBoxDrawingChar (codepoint : ℕ) : Bool :=
  decide (0x2500 ≤ codepoint ∧ codepoint ≤ 0x257f)

/-- Line style for box-drawing characters. -/
inductive LineStyle where
  | none
  | light
  | heavy
  | double
deriving Repr, DecidableEq

/-- Specifies which lines extend from the center of a box-drawing character. -/
structure BoxLines where
  up : LineStyle
  right : LineStyle
  down : LineStyle
  left : LineStyle
deriving Repr, DecidableEq

/-- Mapping from box-drawing codepoints to their line configurations
(renderer.ts BOX_DRAWING_MAP), written as a total function into Option. -/
def BOX_DRAWING_MAP : ℕ → Option BoxLines
  | 0x2500 => some ⟨.none, .light, .none, .light⟩
  | 0x2502 => some ⟨.light, .none, .light, .none⟩
  | 0x250c => some ⟨.none, .light, .light, .none⟩
  | 0x2510 => some ⟨.none, .none, .light, .light⟩
  | 0x2514 => some ⟨.light, .light, .none, .none⟩
  | 0x2518 => some ⟨.light, .none, .none, .light⟩
  | 0x251c => some ⟨.light, .light, .light, .none⟩
  | 0x2524 => some ⟨.light, .none, .light, .light⟩
  | 0x252c => some ⟨.none, .light, .light, .light⟩
  | 0x2534 => some ⟨.light, .light, .none, .light⟩
  | 0x253c => some ⟨.light, .light, .light, .light⟩
  | 0x2501 => some ⟨.none, .heavy, .none, .heavy⟩
  | 0x2503 => some ⟨.heavy, .none, .heavy, .none⟩
  | 0x250f => some ⟨.none, .heavy, .heavy, .none⟩
  | 0x2513 => some ⟨.none, .none, .heavy, .heavy⟩
  | 0x2517 => some ⟨.heavy, .heavy, .none, .none⟩
  | 0x251b => some ⟨.heavy, .none, .none, .heavy⟩
  | 0x2523 => some ⟨.heavy, .heavy, .heavy, .none⟩
  | 0x252b => some ⟨.heavy, .none, .heavy, .heavy⟩
  | 0x2533 => some ⟨.none, .heavy, .heavy, .heavy⟩
  | 0x253b => some ⟨.heavy, .heavy, .none, .heavy⟩
  | 0x254b => some ⟨.heavy, .heavy, .heavy, .heavy⟩
  | 0x2550 => some ⟨.none, .double, .none, .double⟩
  | 0x2551 => some ⟨.double, .none, .double, .none⟩
  | 0x2554 => some ⟨.none, .double, .double, .none⟩
  | 0x2557 => some ⟨.none, .none, .double, .double⟩
  | 0x255a => some ⟨.double, .double, .none, .none⟩
  | 0x255d => some ⟨.double, .none, .none, .double⟩
  | 0x2560 => some ⟨.double, .double, .double, .none⟩
  | 0x2563 => some ⟨.double, .none, .double, .double⟩
  | 0x2566 => some ⟨.none, .double, .double, .double⟩
  | 0x2569 => some ⟨.double, .double, .none, .double⟩
  | 0x256c => some ⟨.double, .double, .double, .double⟩
  | 0x250d => some ⟨.none, .heavy, .light, .none⟩
  | 0x250e => some ⟨.none, .light, .heavy, .none⟩
  | 0x2511 => some ⟨.none, .none, .light, .heavy⟩
  | 0x2512 => some ⟨.none, .none, .heavy, .light⟩
  | 0x2515 => some ⟨.light, .heavy, .none, .none⟩
  | 0x2516 => some ⟨.heavy, .light, .none, .none⟩
  | 0x2519 => some ⟨.light, .none, .none, .heavy⟩
  | 0x251a => some ⟨.heavy, .none, .none, .light⟩
  | 0x251d => some ⟨.light, .heavy, .light, .none⟩
  | 0x251e => some ⟨.heavy, .light, .light, .none⟩
  | 0x251f => some ⟨.light, .light, .heavy, .none⟩
  | 0x2520 => some ⟨.heavy, .light, .heavy, .none⟩
  | 0x2521 => some ⟨.heavy, .heavy, .light, .none⟩
  | 0x2522 => some ⟨.light, .heavy, .heavy, .none⟩
  | 0x2525 => some ⟨.light, .none, .light, .heavy⟩
  | 0x2526 => some ⟨.heavy, .none, .light, .light⟩
  | 0x2527 => some ⟨.light, .none, .heavy, .light⟩
  | 0x2528 => some ⟨.heavy, .none, .heavy, .light⟩
  | 0x2529 => some ⟨.heavy, .none, .light, .heavy⟩
  | 0x252a => some ⟨.light, .none, .heavy, .heavy⟩
  | 0x252d => some ⟨.none, .light, .light, .heavy⟩
  | 0x252e => some ⟨.none, .heavy, .light, .light⟩
  | 0x252f => some ⟨.none, .heavy, .light, .heavy⟩
  | 0x2530 => some ⟨.none, .light, .heavy, .light⟩
  | 0x2531 => some ⟨.none, .light, .heavy, .heavy⟩
  | 0x2532 => some ⟨.none, .heavy, .heavy, .light⟩
  | 0x2535 => some ⟨.light, .light, .none, .heavy⟩
  | 0x2536 => some ⟨.light, .heavy, .none, .light⟩
  | 0x2537 => some ⟨.light, .heavy, .none, .heavy⟩
  | 0x2538 => some ⟨.heavy, .light, .none, .light⟩
  | 0x2539 => some ⟨.heavy, .light, .none, .heavy⟩
  | 0x253a => some ⟨.heavy, .heavy, .none, .light⟩
  | 0x253d => some ⟨.light, .light, .light, .heavy⟩
  | 0x253e => some ⟨.light, .heavy, .light, .light⟩
  | 0x253f => some ⟨.light, .heavy, .light, .heavy⟩
  | 0x2540 => some ⟨.heavy, .light, .light, .light⟩
  | 0x2541 => some ⟨.light, .light, .heavy, .light⟩
  | 0x2542 => some ⟨.heavy, .light, .heavy, .light⟩
  | 0x2543 => some ⟨.heavy, .light, .light, .heavy⟩
  | 0x2544 => some ⟨.heavy, .heavy, .light, .light⟩
  | 0x2545 => some ⟨.light, .light, .heavy, .heavy⟩
  | 0x2546 => some ⟨.light, .heavy, .heavy, .light⟩
  | 0x2547 => some ⟨.heavy, .heavy, .light, .heavy⟩
  | 0x2548 => some ⟨.light, .heavy, .heavy, .heavy⟩
  | 0x2549 => some ⟨.heavy, .light, .heavy, .heavy⟩
  | 0x254a => some ⟨.heavy, .heavy, .heavy, .light⟩
  | 0x2552 => some ⟨.none, .double, .light, .none⟩
  | 0x2553 => some ⟨.none, .light, .double, .none⟩
  | 0x2555 => some ⟨.none, .none, .light, .double⟩
  | 0x2556 => some ⟨.none, .none, .double, .light⟩
  | 0x2558 => some ⟨.light, .double, .none, .none⟩
  | 0x2559 => some ⟨.double, .light, .none, .none⟩
  | 0x255b => some ⟨.light, .none, .none, .double⟩
  | 0x255c => some ⟨.double, .none, .none, .light⟩
  | 0x255e => some ⟨.light, .double, .light, .none⟩
  | 0x255f => some ⟨.double, .light, .double, .none⟩
  | 0x2561 => some ⟨.light, .none, .light, .double⟩
  | 0x2562 => some ⟨.double, .none, .double, .light⟩
  | 0x2564 => some ⟨.none, .double, .light, .double⟩
  | 0x2565 => some ⟨.none, .light, .double, .light⟩
  | 0x2567 => some ⟨.light, .double, .none, .double⟩
  | 0x2568 => some ⟨.double, .light, .none, .light⟩
  | 0x256a => some ⟨.light, .double, .light, .double⟩
  | 0x256b => some ⟨.double, .light, .double, .light⟩
  | 0x2504 => some ⟨.none, .light, .none, .light⟩
  | 0x2505 => some ⟨.none, .heavy, .none, .heavy⟩
  | 0x2506 => some ⟨.light, .none, .light, .none⟩
  | 0x2507 => some ⟨.heavy, .none, .heavy, .none⟩
  | 0x2508 => some ⟨.none, .light, .none, .light⟩
  | 0x2509 => some ⟨.none, .heavy, .none, .heavy⟩
  | 0x250a => some ⟨.light, .none, .light, .none⟩
  | 0x250b => some ⟨.heavy, .none, .heavy, .none⟩
  | 0x254c => some ⟨.none, .light, .none, .light⟩
  | 0x254d => some ⟨.none, .heavy, .none, .heavy⟩
  | 0x254e => some ⟨.light, .none, .light, .none⟩
  | 0x254f => some ⟨.heavy, .none, .heavy, .none⟩
  | 0x256d => some ⟨.none, .light, .light, .none⟩
  | 0x256e => some ⟨.none, .none, .light, .light⟩
  | 0x256f => some ⟨.light, .none, .none, .light⟩
  | 0x2570 => some ⟨.light, .light, .none, .none⟩
  | 0x2574 => some ⟨.none, .none, .none, .light⟩
  | 0x2575 => some ⟨.light, .none, .none, .none⟩
  | 0x2576 => some ⟨.none, .light, .none, .none⟩
  | 0x2577 => some ⟨.none, .none, .light, .none⟩
  | 0x2578 => some ⟨.none, .none, .none, .heavy⟩
  | 0x2579 => some ⟨.heavy, .none, .none, .none⟩
  | 0x257a => some ⟨.none, .heavy, .none, .none⟩
  | 0x257b => some ⟨.none, .none, .heavy, .none⟩
  | 0x257c => some ⟨.none, .heavy, .none, .light⟩
  | 0x257d => some ⟨.light, .none, .heavy, .none⟩
  | 0x257e => some ⟨.none, .light, .none, .heavy⟩
  | 0x257f => some ⟨.heavy, .none, .light, .none⟩
  | _ => none

/-- Get box line configuration for a codepoint. -/
def getBoxLines (codepoint : ℕ) : Option BoxLines :=
  BOX_DRAWING_MAP codepoint

/-- Check if a codepoint is a block element character (U+2580-259F). -/
def isBlockElement (codepoint : ℕ) : Bool :=
  decide (0x2580 ≤ codepoint ∧ codepoint ≤ 0x259f)

/-- Block element types for rendering (renderer.ts BlockType). -/
inductive BlockType where
  | full
  | upper (eighths : ℕ)
  | lower (eighths : ℕ)
  | left (eighths : ℕ)
  | right (eighths : ℕ)
  | quadrants (tl tr bl br : Bool)
  | shade (density : ℚ)
deriving Repr, DecidableEq

/-- Get block element configuration for a codepoint (renderer.ts getBlockType). -/
def getBlockType (codepoint : ℕ) : Option BlockType :=
  match codepoint with
  | 0x2580 => some (.upper 4)
  | 0x2581 => some (.lower 1)
  | 0x2582 => some (.lower 2)
  | 0x2583 => some (.lower 3)
  | 0x2584 => some (.lower 4)
  | 0x2585 => some (.lower 5)
  | 0x2586 => some (.lower 6)
  | 0x2587 => some (.lower 7)
  | 0x2588 => some .full
  | 0x2589 => some (.left 7)
  | 0x258a => some (.left 6)
  | 0x258b => some (.left 5)
  | 0x258c => some (.left 4)
  | 0x258d => some (.left 3)
  | 0x258e => some (.left 2)
  | 0x258f => some (.left 1)
  | 0x2590 => some (.right 4)
  | 0x2591 => some (.shade (1/4))
  | 0x2592 => some (.shade (1/2))
  | 0x2593 => some (.shade (3/4))
  | 0x2594 => some (.upper 1)
  | 0x2595 => some (.right 1)
  | 0x2596 => some (.quadrants false false true false)
  | 0x2597 => some (.quadrants false false false true)
  | 0x2598 => some (.quadrants true false false false)
  | 0x2599 => some (.quadrants true false true true)
  | 0x259a => some (.quadrants true false false true)
  | 0x259b => some (.quadrants true true true false)
  | 0x259c => some (.quadrants true true false true)
  | 0x259d => some (.quadrants false true false false)
  | 0x259e => some (.quadrants false true true false)
  | 0x259f => some (.quadrants false true true true)
  | _ => none

/-- Check if a codepoint is a Braille pattern (U+2800-28FF). -/
def isBraillePattern (codepoint : ℕ) : Bool :=
  decide (0x2800 ≤ codepoint ∧ codepoint ≤ 0x28ff)

/-- Get which dots are present in a Braille pattern; eight booleans for dots
1-8 (renderer.ts getBrailleDots). -/
def getBrailleDots (codepoint : ℕ) : List Bool :=
  let pattern := codepoint - 0x2800
  [ decide (pattern &&& 0x01 ≠ 0)
  , decide (pattern &&& 0x02 ≠ 0)
  , decide (pattern &&& 0x04 ≠ 0)
  , decide (pattern &&& 0x08 ≠ 0)
  , decide (pattern &&& 0x10 ≠ 0)
  , decide (pattern &&& 0x20 ≠ 0)
  , decide (pattern &&& 0x40 ≠ 0)
  , decide (pattern &&& 0x80 ≠ 0) ]

/-- Check if a codepoint is a sextant character (U+1FB00-1FB3B). -/
def isSextant (codepoint : ℕ) : Bool :=
  decide (0x1fb00 ≤ codepoint ∧ codepoint ≤ 0x1fb3b)

/-- Get which segments are filled in a sextant character; six booleans for
segments 0-5 (renderer.ts getSextantSegments). -/
def getSextantSegments (codepoint : ℕ) : List Bool :=
  let pattern0 := codepoint - 0x1fb00 + 1
  let pattern := if 63 ≤ pattern0 then pattern0 + 1 else pattern0
  [ decide (pattern &&& 0x01 ≠ 0)
  , decide (pattern &&& 0x02 ≠ 0)
  , decide (pattern &&& 0x04 ≠ 0)
  , decide (pattern &&& 0x08 ≠ 0)
  , decide (pattern &&& 0x10 ≠ 0)
  , decide (pattern &&& 0x20 ≠ 0) ]

/-- Triangle corner types for the corner triangle characters. -/
inductive TriangleCorner where
  | lowerRight
  | lowerLeft
  | upperLeft
  | upperRight
deriving Repr, DecidableEq

/-- Check if a codepoint is a corner triangle (U+25E2-25E5). -/
def isCornerTriangle (codepoint : ℕ) : Bool :=
  decide (0x25e2 ≤ codepoint ∧ codepoint ≤ 0x25e5)

/-- Get the corner type for a triangle character. -/
def getTriangleCorner (codepoint : ℕ) : Option TriangleCorner :=
  match codepoint with
  | 0x25e2 => some .lowerRight
  | 0x25e3 => some .lowerLeft
  | 0x25e4 => some .upperLeft
  | 0x25e5 => some .upperRight
  | _ => none

/-- Check if a codepoint is a powerline arrow or directional triangle. -/
def isPowerlineChar (codepoint : ℕ) : Bool :=
  match codepoint with
  | 0xe0b0 | 0xe0b2 | 0xe0b4 | 0xe0b6
  | 0x25b6 | 0x25c0 | 0x25b2 | 0x25bc | 0x25ba | 0x25c4 => true
  | _ => false

/-- Powerline and arrow triangle directions. -/
inductive PowerlineType where
  | right
  | left
  | up
  | down
deriving Repr, DecidableEq

/-- Get the direction for a powerline character. -/
def getPowerlineDirection (codepoint : ℕ) : Option PowerlineType :=
  match codepoint with
  | 0xe0b0 | 0xe0b4 | 0x25b6 | 0x25ba => some .right
  | 0xe0b2 | 0xe0b6 | 0x25c0 | 0x25c4 => some .left
  | 0x25b2 => some .up
  | 0x25bc => some .down
  | _ => none

/-- Corner names used by the wedge and mosaic configurations. -/
inductive CornerName where
  | bl
  | br
  | tl
  | tr
deriving Repr, DecidableEq

/-- Wedge size factors. -/
inductive WedgeSize where
  | small
  | half
  | large
deriving Repr, DecidableEq

/-- Wedge types: diagonal fills or half-cell scanline rectangles. -/
inductive WedgeType where
  | diagonal (from_ : CornerName) (size : WedgeSize)
  | halfScanline (upper : Bool) (leftPart : Bool)
deriving Repr, DecidableEq

/-- Check if a codepoint is a Legacy Computing wedge (U+1FB3C-1FB8B). -/
def isLegacyWedge (codepoint : ℕ) : Bool :=
  decide (0x1fb3c ≤ codepoint ∧ codepoint ≤ 0x1fb8b)

/-- Size table used in the four explicit wedge sub-ranges of the source:
index 0 is small, 1 and 2 half, 3 large, with half as fallback. -/
def wedgeSizeTable (i : ℕ) : WedgeSize :=
  match i with
  | 0 => .small
  | 1 => .half
  | 2 => .half
  | 3 => .large
  | _ => .half

/-- Corner table used by the parametric wedge sub-ranges of the source. -/
def wedgeCornerTable (i : ℕ) : CornerName :=
  match i with
  | 0 => .bl
  | 1 => .br
  | 2 => .tl
  | _ => .tr

/-- Get wedge configuration for Legacy Computing characters
(renderer.ts getLegacyWedgeType). -/
def getLegacyWedgeType (codepoint : ℕ) : Option WedgeType :=
  if 0x1fb3c ≤ codepoint ∧ codepoint ≤ 0x1fb3f then
    some (.diagonal .bl (wedgeSizeTable (codepoint - 0x1fb3c)))
  else if 0x1fb40 ≤ codepoint ∧ codepoint ≤ 0x1fb43 then
    some (.diagonal .br (wedgeSizeTable (codepoint - 0x1fb40)))
  else if 0x1fb44 ≤ codepoint ∧ codepoint ≤ 0x1fb47 then
    some (.diagonal .tl (wedgeSizeTable (codepoint - 0x1fb44)))
  else if 0x1fb48 ≤ codepoint ∧ codepoint ≤ 0x1fb4b then
    some (.diagonal .tr (wedgeSizeTable (codepoint - 0x1fb48)))
  else if 0x1fb4c ≤ codepoint ∧ codepoint ≤ 0x1fb67 then
    some (.diagonal (wedgeCornerTable ((codepoint - 0x1fb4c) % 4)) .half)
  else if 0x1fb68 ≤ codepoint ∧ codepoint ≤ 0x1fb6f then
    some (.diagonal (wedgeCornerTable ((codepoint - 0x1fb68) % 4)) .large)
  else if 0x1fb70 ≤ codepoint ∧ codepoint ≤ 0x1fb75 then
    some (.halfScanline true true)
  else if 0x1fb76 ≤ codepoint ∧ codepoint ≤ 0x1fb7b then
    some (.halfScanline true false)
  else if 0x1fb7c ≤ codepoint ∧ codepoint ≤ 0x1fb8b then
    some (.halfScanline (codepoint - 0x1fb7c < 8) ((codepoint - 0x1fb7c) % 2 = 0))
  else
    none

/-- Check if a codepoint is an octant character (U+1CD00-1CDE5). -/
def isOctant (codepoint : ℕ) : Bool :=
  decide (0x1cd00 ≤ codepoint ∧ codepoint ≤ 0x1cde5)

/-- Get which cells are filled in an octant character; eight booleans for
the 2x4 grid (renderer.ts getOctantCells). -/
def getOctantCells (codepoint : ℕ) : List Bool :=
  let pattern := codepoint - 0x1cd00
  [ decide (pattern &&& 0x01 ≠ 0)
  , decide (pattern &&& 0x02 ≠ 0)
  , decide (pattern &&& 0x04 ≠ 0)
  , decide (pattern &&& 0x08 ≠ 0)
  , decide (pattern &&& 0x10 ≠ 0)
  , decide (pattern &&& 0x20 ≠ 0)
  , decide (pattern &&& 0x40 ≠ 0)
  , decide (pattern &&& 0x80 ≠ 0) ]

/-- Check if a codepoint is a smooth mosaic character (U+1FB90-1FBAF). -/
def isSmoothMosaic (codepoint : ℕ) : Bool :=
  decide (0x1fb90 ≤ codepoint ∧ codepoint ≤ 0x1fbaf)

/-- Check if a codepoint is a rounded corner character (U+256D-2570). -/
def isRoundedCorner (codepoint : ℕ) : Bool :=
  decide (0x256d ≤ codepoint ∧ codepoint ≤ 0x2570)

/-- Rounded corner variants. -/
inductive RoundedCornerType where
  | downRight
  | downLeft
  | upLeft
  | upRight
deriving Repr, DecidableEq

/-- Get rounded corner type (renderer.ts getRoundedCornerType). -/
def getRoundedCornerType (codepoint : ℕ) : Option RoundedCornerType :=
  match codepoint with
  | 0x256d => some .downRight
  | 0x256e => some .downLeft
  | 0x256f => some .upLeft
  | 0x2570 => some .upRight
  | _ => none

/-- Direction of a dashed line. -/
inductive DashDirection where
  | horizontal
  | vertical
deriving Repr, DecidableEq

/-- Weight of a dashed line. -/
inductive DashWeight where
  | light
  | heavy
deriving Repr, DecidableEq

/-- Dashed line configuration (renderer.ts DashedLineConfig). -/
structure DashedLineConfig where
  direction : DashDirection
  weight : DashWeight
  dashes : ℕ
deriving Repr, DecidableEq

/-- Check if a codepoint is a dashed box drawing character. -/
def isDashedLine (codepoint : ℕ) : Bool :=
  decide ((0x2504 ≤ codepoint ∧ codepoint ≤ 0x250b) ∨
          (0x254c ≤ codepoint ∧ codepoint ≤ 0x254f))

/-- Get dashed line configuration (renderer.ts getDashedLineConfig). -/
def getDashedLineConfig (codepoint : ℕ) : Option DashedLineConfig :=
  match codepoint with
  | 0x2504 => some ⟨.horizontal, .light, 3⟩
  | 0x2505 => some ⟨.horizontal, .heavy, 3⟩
  | 0x2506 => some ⟨.vertical, .light, 3⟩
  | 0x2507 => some ⟨.vertical, .heavy, 3⟩
  | 0x2508 => some ⟨.horizontal, .light, 4⟩
  | 0x2509 => some ⟨.horizontal, .heavy, 4⟩
  | 0x250a => some ⟨.vertical, .light, 4⟩
  | 0x250b => some ⟨.vertical, .heavy, 4⟩
  | 0x254c => some ⟨.horizontal, .light, 2⟩
  | 0x254d => some ⟨.horizontal, .heavy, 2⟩
  | 0x254e => some ⟨.vertical, .light, 2⟩
  | 0x254f => some ⟨.vertical, .heavy, 2⟩
  | _ => none

/-- Thickness helper local to drawBoxChar in the source: light, heavy and
double line styles map to their thickness, absent lines to zero. -/
def getThickness (lightThickness heavyThickness doubleLineThickness : ℚ) :
    LineStyle → ℚ
  | .light => lightThickness
  | .heavy => heavyThickness
  | .double => doubleLineThickness
  | .none => 0

/-- Draw a box-drawing character with filled rectangles
(renderer.ts drawBoxChar). -/
def drawBoxChar (metrics : FontMetrics) (codepoint : ℕ) (cellX cellY : ℚ)
    (fgColor : String) (a : ℚ) : List DrawOp :=
  match getBoxLines codepoint with
  | none => []
  | some lines =>
    let width := metrics.width
    let height := metrics.height
    let lightThickness := max 1 (jround (height / 12))
    let heavyThickness := max 2 (jround (height / 6))
    let doubleGap := max 2 (jround (height / 8))
    let doubleLineThickness := max 1 (jround (height / 16))
    let centerX := cellX + width / 2
    let centerY := cellY + height / 2
    let thicknessOf := getThickness lightThickness heavyThickness doubleLineThickness
    let horizontalOps :=
      if lines.left ≠ .none ∨ lines.right ≠ .none then
        if lines.left = .double ∨ lines.right = .double then
          let offset := (doubleGap + doubleLineThickness) / 2
          (if lines.left ≠ .none then
            [ DrawOp.fillRect cellX (centerY - offset - doubleLineThickness / 2)
                (width / 2 + (if lines.right ≠ .none then doubleLineThickness / 2 else 0))
                doubleLineThickness fgColor a
            , DrawOp.fillRect cellX (centerY + offset - doubleLineThickness / 2)
                (width / 2 + (if lines.right ≠ .none then doubleLineThickness / 2 else 0))
                doubleLineThickness fgColor a ]
          else []) ++
          (if lines.right ≠ .none then
            [ DrawOp.fillRect
                (centerX - (if lines.left ≠ .none then doubleLineThickness / 2 else 0))
                (centerY - offset - doubleLineThickness / 2)
                (width / 2 + (if lines.left ≠ .none then doubleLineThickness / 2 else 0))
                doubleLineThickness fgColor a
            , DrawOp.fillRect
                (centerX - (if lines.left ≠ .none then doubleLineThickness / 2 else 0))
                (centerY + offset - doubleLineThickness / 2)
                (width / 2 + (if lines.left ≠ .none then doubleLineThickness / 2 else 0))
                doubleLineThickness fgColor a ]
          else [])
        else
          let leftThickness := thicknessOf lines.left
          let rightThickness := thicknessOf lines.right
          if lines.left ≠ .none ∧ lines.right ≠ .none ∧ lines.left = lines.right then
            let thickness := leftThickness
            [ DrawOp.fillRect cellX (jround (centerY - thickness / 2)) width thickness
                fgColor a ]
          else
            (if lines.left ≠ .none then
              let thickness := leftThickness
              let extendPastCenter := if lines.right ≠ .none then thickness / 2 else 0
              [ DrawOp.fillRect cellX (jround (centerY - thickness / 2))
                  (jceil (width / 2 + extendPastCenter)) thickness fgColor a ]
            else []) ++
            (if lines.right ≠ .none then
              let thickness := rightThickness
              let extendPastCenter := if lines.left ≠ .none then thickness / 2 else 0
              [ DrawOp.fillRect (jfloor (centerX - extendPastCenter))
                  (jround (centerY - thickness / 2))
                  (jceil (width / 2 + extendPastCenter)) thickness fgColor a ]
            else [])
      else []
    let verticalOps :=
      if lines.up ≠ .none ∨ lines.down ≠ .none then
        if lines.up = .double ∨ lines.down = .double then
          let offset := (doubleGap + doubleLineThickness) / 2
          (if lines.up ≠ .none then
            [ DrawOp.fillRect (jround (centerX - offset - doubleLineThickness / 2)) cellY
                doubleLineThickness (jceil (height / 2 + doubleLineThickness / 2))
                fgColor a
            , DrawOp.fillRect (jround (centerX + offset - doubleLineThickness / 2)) cellY
                doubleLineThickness (jceil (height / 2 + doubleLineThickness / 2))
                fgColor a ]
          else []) ++
          (if lines.down ≠ .none then
            [ DrawOp.fillRect (jround (centerX - offset - doubleLineThickness / 2))
                (jfloor (centerY - doubleLineThickness / 2))
                doubleLineThickness (jceil (height / 2 + doubleLineThickness / 2))
                fgColor a
            , DrawOp.fillRect (jround (centerX + offset - doubleLineThickness / 2))
                (jfloor (centerY - doubleLineThickness / 2))
                doubleLineThickness (jceil (height / 2 + doubleLineThickness / 2))
                fgColor a ]
          else [])
        else
          let upThickness := thicknessOf lines.up
          let downThickness := thicknessOf lines.down
          if lines.up ≠ .none ∧ lines.down ≠ .none ∧ lines.up = lines.down then
            let thickness := upThickness
            [ DrawOp.fillRect (jround (centerX - thickness / 2)) cellY thickness height
                fgColor a ]
          else
            (if lines.up ≠ .none then
              let thickness := upThickness
              let extendPastCenter := if lines.down ≠ .none then thickness / 2 else 0
              [ DrawOp.fillRect (jround (centerX - thickness / 2)) cellY thickness
                  (jceil (height / 2 + extendPastCenter)) fgColor a ]
            else []) ++
            (if lines.down ≠ .none then
              let thickness := downThickness
              let extendPastCenter := if lines.up ≠ .none then thickness / 2 else 0
              [ DrawOp.fillRect (jround (centerX - thickness / 2))
                  (jfloor (centerY - extendPastCenter)) thickness
                  (jceil (height / 2 + extendPastCenter)) fgColor a ]
            else [])
      else []
    horizontalOps ++ verticalOps

/-- Draw a block element character (renderer.ts drawBlockChar). Returns the
ops together with the globalAlpha value after the call: the shade branch
sets the alpha to the shade density for its fill and then resets it to 1. -/
def drawBlockChar (metrics : FontMetrics) (codepoint : ℕ) (cellX cellY : ℚ)
    (fgColor : String) (a : ℚ) : List DrawOp × ℚ :=
  match getBlockType codepoint with
  | none => ([], a)
  | some block =>
    let width := metrics.width
    let height := metrics.height
    match block with
    | .full => ([DrawOp.fillRect cellX cellY width height fgColor a], a)
    | .upper eighths =>
        let upperHeight := jround ((height * eighths) / 8)
        ([DrawOp.fillRect cellX cellY width upperHeight fgColor a], a)
    | .lower eighths =>
        let lowerHeight := jround ((height * eighths) / 8)
        ([DrawOp.fillRect cellX (cellY + height - lowerHeight) width lowerHeight
            fgColor a], a)
    | .left eighths =>
        let leftWidth := jround ((width * eighths) / 8)
        ([DrawOp.fillRect cellX cellY leftWidth height fgColor a], a)
    | .right eighths =>
        let rightWidth := jround ((width * eighths) / 8)
        ([DrawOp.fillRect (cellX + width - rightWidth) cellY rightWidth height
            fgColor a], a)
    | .quadrants tl tr bl br =>
        let halfW := jceil (width / 2)
        let halfH := jceil (height / 2)
        let midX := cellX + jfloor (width / 2)
        let midY := cellY + jfloor (height / 2)
        ((if tl then [DrawOp.fillRect cellX cellY halfW halfH fgColor a] else []) ++
         (if tr then [DrawOp.fillRect midX cellY halfW halfH fgColor a] else []) ++
         (if bl then [DrawOp.fillRect cellX midY halfW halfH fgColor a] else []) ++
         (if br then [DrawOp.fillRect midX midY halfW halfH fgColor a] else []), a)
    | .shade density =>
        ([DrawOp.fillRect cellX cellY width height fgColor density], 1)

/-- Dot position table of drawBrailleChar: dot index to column and row. -/
def brailleDotPositions : List (ℕ × ℕ) :=
  [(0, 0), (0, 1), (0, 2), (1, 0), (1, 1), (1, 2), (0, 3), (1, 3)]

/-- Draw a Braille pattern character with filled circles
(renderer.ts drawBrailleChar). -/
def drawBrailleChar (metrics : FontMetrics) (codepoint : ℕ) (cellX cellY : ℚ)
    (fgColor : String) (a : ℚ) : List DrawOp :=
  let dots := getBrailleDots codepoint
  let width := metrics.width
  let height := metrics.height
  let paddingX := width * (15/100)
  let paddingY := height * (1/10)
  let dotAreaWidth := width - paddingX * 2
  let dotAreaHeight := height - paddingY * 2
  let dotRadius := max 1 (min (dotAreaWidth / 4) (dotAreaHeight / 8) * (9/10))
  let colSpacing := dotAreaWidth
  let rowSpacing := dotAreaHeight / 3
  let startX := cellX + paddingX + dotRadius
  let startY := cellY + paddingY + dotRadius
  (List.range 8).filterMap fun i =>
    if dots.getD i false then
      let p := brailleDotPositions.getD i (0, 0)
      some (DrawOp.fillCircle (startX + p.1 * colSpacing) (startY + p.2 * rowSpacing)
        dotRadius fgColor a)
    else none

/-- Segment position table of drawSextantChar: segment index to column, row. -/
def sextantSegmentPositions : List (ℕ × ℕ) :=
  [(0, 0), (1, 0), (0, 1), (1, 1), (0, 2), (1, 2)]

/-- Draw a sextant character with filled rectangles
(renderer.ts drawSextantChar). -/
def drawSextantChar (metrics : FontMetrics) (codepoint : ℕ) (cellX cellY : ℚ)
    (fgColor : String) (a : ℚ) : List DrawOp :=
  let segments := getSextantSegments codepoint
  let width := metrics.width
  let height := metrics.height
  let segW := jceil (width / 2)
  let segH := jceil (height / 3)
  (List.range 6).filterMap fun i =>
    if segments.getD i false then
      let p := sextantSegmentPositions.getD i (0, 0)
      let segX := cellX + p.1 * jfloor (width / 2)
      let segY := cellY + p.2 * jfloor (height / 3)
      let actualW := if p.1 = 1 then width - jfloor (width / 2) else segW
      let actualH := if p.2 = 2 then height - jfloor (height / 3) * 2 else segH
      some (DrawOp.fillRect segX segY actualW actualH fgColor a)
    else none

/-- Draw a corner triangle character (renderer.ts drawCornerTriangle). -/
def drawCornerTriangle (metrics : FontMetrics) (codepoint : ℕ) (cellX cellY : ℚ)
    (fgColor : String) (a : ℚ) : List DrawOp :=
  match getTriangleCorner codepoint with
  | none => []
  | some corner =>
    let width := metrics.width
    let height := metrics.height
    match corner with
    | .lowerRight =>
        [DrawOp.fillTriangle (cellX + width) cellY (cellX + width) (cellY + height)
          cellX (cellY + height) fgColor a]
    | .lowerLeft =>
        [DrawOp.fillTriangle cellX cellY (cellX + width) (cellY + height)
          cellX (cellY + height) fgColor a]
    | .upperLeft =>
        [DrawOp.fillTriangle cellX cellY (cellX + width) cellY
          cellX (cellY + height) fgColor a]
    | .upperRight =>
        [DrawOp.fillTriangle cellX cellY (cellX + width) cellY
          (cellX + width) (cellY + height) fgColor a]

/-- Draw a powerline arrow or triangle (renderer.ts drawPowerlineChar). -/
def drawPowerlineChar (metrics : FontMetrics) (codepoint : ℕ) (cellX cellY : ℚ)
    (fgColor : String) (a : ℚ) : List DrawOp :=
  match getPowerlineDirection codepoint with
  | none => []
  | some direction =>
    let width := metrics.width
    let height := metrics.height
    match direction with
    | .right =>
        [DrawOp.fillTriangle cellX cellY (cellX + width) (cellY + height / 2)
          cellX (cellY + height) fgColor a]
    | .left =>
        [DrawOp.fillTriangle (cellX + width) cellY cellX (cellY + height / 2)
          (cellX + width) (cellY + height) fgColor a]
    | .up =>
        [DrawOp.fillTriangle cellX (cellY + height) (cellX + width / 2) cellY
          (cellX + width) (cellY + height) fgColor a]
    | .down =>
        [DrawOp.fillTriangle cellX cellY (cellX + width / 2) (cellY + height)
          (cellX + width) cellY fgColor a]

/-- Size factor of a wedge. -/
def wedgeSizeFactor : WedgeSize → ℚ
  | .small => 33/100
  | .half => 1/2
  | .large => 67/100

/-- Draw a Legacy Computing wedge (renderer.ts drawLegacyWedge). -/
def drawLegacyWedge (metrics : FontMetrics) (codepoint : ℕ) (cellX cellY : ℚ)
    (fgColor : String) (a : ℚ) : List DrawOp :=
  match getLegacyWedgeType codepoint with
  | none => []
  | some wedge =>
    let width := metrics.width
    let height := metrics.height
    match wedge with
    | .diagonal from_ size =>
        let sizeFactor := wedgeSizeFactor size
        match from_ with
        | .bl =>
            [DrawOp.fillTriangle cellX (cellY + height)
              (cellX + width * sizeFactor) (cellY + height)
              cellX (cellY + height * (1 - sizeFactor)) fgColor a]
        | .br =>
            [DrawOp.fillTriangle (cellX + width) (cellY + height)
              (cellX + width * (1 - sizeFactor)) (cellY + height)
              (cellX + width) (cellY + height * (1 - sizeFactor)) fgColor a]
        | .tl =>
            [DrawOp.fillTriangle cellX cellY
              (cellX + width * sizeFactor) cellY
              cellX (cellY + height * sizeFactor) fgColor a]
        | .tr =>
            [DrawOp.fillTriangle (cellX + width) cellY
              (cellX + width * (1 - sizeFactor)) cellY
              (cellX + width) (cellY + height * sizeFactor) fgColor a]
    | .halfScanline upper leftPart =>
        let halfW := width / 2
        let halfH := height / 2
        let startX := if leftPart then cellX else cellX + halfW
        let startY := if upper then cellY else cellY + halfH
        [DrawOp.fillRect startX startY halfW halfH fgColor a]

/-- Cell position table of drawOctant: cell index to column and row. -/
def octantPositions : List (ℕ × ℕ) :=
  [(0, 0), (1, 0), (0, 1), (1, 1), (0, 2), (1, 2), (0, 3), (1, 3)]

/-- Draw an octant character, a 2x4 grid of blocks (renderer.ts drawOctant). -/
def drawOctant (metrics : FontMetrics) (codepoint : ℕ) (cellX cellY : ℚ)
    (fgColor : String) (a : ℚ) : List DrawOp :=
  let cells := getOctantCells codepoint
  let width := metrics.width
  let height := metrics.height
  let cellW := jceil (width / 2)
  let cellH := jceil (height / 4)
  (List.range 8).filterMap fun i =>
    if cells.getD i false then
      let p := octantPositions.getD i (0, 0)
      let x := cellX + p.1 * jfloor (width / 2)
      let y := cellY + p.2 * jfloor (height / 4)
      let w := if p.1 = 1 then width - jfloor (width / 2) else cellW
      let h := if p.2 = 3 then height - jfloor (height / 4) * 3 else cellH
      some (DrawOp.fillRect x y w h fgColor a)
    else none

/-- Draw a smooth mosaic character (renderer.ts drawSmoothMosaic). -/
def drawSmoothMosaic (metrics : FontMetrics) (codepoint : ℕ) (cellX cellY : ℚ)
    (fgColor : String) (a : ℚ) : List DrawOp :=
  let width := metrics.width
  let height := metrics.height
  let offset := codepoint - 0x1fb90
  if offset < 8 then
    match offset % 4 with
    | 0 =>
        [DrawOp.fillTriangle cellX (cellY + height) (cellX + width) (cellY + height)
          cellX cellY fgColor a]
    | 1 =>
        [DrawOp.fillTriangle (cellX + width) (cellY + height) cellX (cellY + height)
          (cellX + width) cellY fgColor a]
    | 2 =>
        [DrawOp.fillTriangle cellX cellY (cellX + width) cellY
          cellX (cellY + height) fgColor a]
    | _ =>
        [DrawOp.fillTriangle (cellX + width) cellY cellX cellY
          (cellX + width) (cellY + height) fgColor a]
  else
    [ DrawOp.fillRect cellX cellY (width / 2) (height / 2) fgColor a
    , DrawOp.fillRect (cellX + width / 2) (cellY + height / 2) (width / 2) (height / 2)
        fgColor a ]

/-- Draw a rounded corner character as a stroked arc with straight
extensions (renderer.ts drawRoundedCorner). The source builds one path and
strokes it once; the embedding records the arc and the two extension lines
as separate stroked primitives of the same stroke state. -/
def drawRoundedCorner (metrics : FontMetrics) (codepoint : ℕ) (cellX cellY : ℚ)
    (fgColor : String) (a : ℚ) : List DrawOp :=
  let width := metrics.width
  let height := metrics.height
  let thickness := max 1 (jround (height / 12))
  let centerX := jround (cellX + width / 2)
  let centerY := jround (cellY + height / 2)
  let radius := min width height / 2 - thickness / 2
  match getRoundedCornerType codepoint with
  | none => []
  | some .downRight =>
      [ DrawOp.strokeArc (centerX + radius) (centerY + radius) radius 1 (3/2)
          fgColor thickness a
      , DrawOp.strokeLine centerX (jround (cellY + height / 2 - radius)) centerX cellY
          fgColor thickness a
      , DrawOp.strokeLine (jround (cellX + width / 2 + radius)) centerY
          (cellX + width) centerY fgColor thickness a ]
  | some .downLeft =>
      [ DrawOp.strokeArc (centerX - radius) (centerY + radius) radius (3/2) 2
          fgColor thickness a
      , DrawOp.strokeLine centerX (jround (cellY + height / 2 - radius)) centerX cellY
          fgColor thickness a
      , DrawOp.strokeLine (jround (cellX + width / 2 - radius)) centerY
          cellX centerY fgColor thickness a ]
  | some .upLeft =>
      [ DrawOp.strokeArc (centerX - radius) (centerY - radius) radius 0 (1/2)
          fgColor thickness a
      , DrawOp.strokeLine centerX (jround (cellY + height / 2 + radius)) centerX
          (cellY + height) fgColor thickness a
      , DrawOp.strokeLine (jround (cellX + width / 2 - radius)) centerY
          cellX centerY fgColor thickness a ]
  | some .upRight =>
      [ DrawOp.strokeArc (centerX + radius) (centerY - radius) radius (1/2) 1
          fgColor thickness a
      , DrawOp.strokeLine centerX (jround (cellY + height / 2 + radius)) centerX
          (cellY + height) fgColor thickness a
      , DrawOp.strokeLine (jround (cellX + width / 2 + radius)) centerY
          (cellX + width) centerY fgColor thickness a ]

/-- Draw a dashed box drawing line as N separate dashes
(renderer.ts drawDashedLine). -/
def drawDashedLine (metrics : FontMetrics) (codepoint : ℕ) (cellX cellY : ℚ)
    (fgColor : String) (a : ℚ) : List DrawOp :=
  match getDashedLineConfig codepoint with
  | none => []
  | some config =>
    let width := metrics.width
    let height := metrics.height
    let baseThickness := max 1 (jround (height / 12))
    let thickness := if config.weight = .heavy then baseThickness * 2 else baseThickness
    let centerX := jround (cellX + width / 2)
    let centerY := jround (cellY + height / 2)
    match config.direction with
    | .horizontal =>
        let dashWidth := width / (config.dashes * 2 - 1 : ℕ)
        let y := jround (centerY - thickness / 2)
        (List.range config.dashes).map fun (i : ℕ) =>
          DrawOp.fillRect (jround (cellX + (i : ℚ) * dashWidth * 2)) y
            (jround dashWidth) thickness fgColor a
    | .vertical =>
        let dashHeight := height / (config.dashes * 2 - 1 : ℕ)
        let x := jround (centerX - thickness / 2)
        (List.range config.dashes).map fun (i : ℕ) =>
          DrawOp.fillRect x (jround (cellY + (i : ℚ) * dashHeight * 2)) thickness
            (jround dashHeight) fgColor a

/-- Selection coordinates, viewport-relative and inclusive. -/
structure SelectionCoords where
  startCol : ℤ
  startRow : ℤ
  endCol : ℤ
  endRow : ℤ
deriving Repr, DecidableEq

/-- Selection manager as consumed by the renderer: selection presence and
coordinates plus the set of dirty selection rows. -/
structure SelectionManager where
  hasSelection : Bool
  selectionCoords : SelectionCoords
  dirtySelectionRows : Finset ℤ
deriving DecidableEq

/-- Hovered link range for regex-detected URLs. -/
structure LinkRange where
  startX : ℤ
  startY : ℤ
  endX : ℤ
  endY : ℤ
deriving Repr, DecidableEq

/-- Cursor shape options. -/
inductive CursorStyle where
  | block
  | underline
  | bar
deriving Repr, DecidableEq

/-- Renderer instance state: the private fields of CanvasRenderer that the
embedded methods read or write. Canvas dimensions are in device pixels. -/
structure RendererState where
  metrics : FontMetrics
  theme : Theme
  devicePixelRatio : ℚ
  canvasWidth : ℚ
  canvasHeight : ℚ
  fontSize : ℚ
  fontFamily : String
  cursorStyle : CursorStyle
  cursorBlink : Bool
  cursorVisible : Bool
  cursorSuppressed : Bool
  lastCursorPosition : ℤ × ℤ
  lastViewportY : ℚ
  hoveredHyperlinkId : ℕ
  previousHoveredHyperlinkId : ℕ
  hoveredLinkRange : Option LinkRange
  previousHoveredLinkRange : Option LinkRange
  selectionManager : Option SelectionManager
  currentSelectionCoords : Option SelectionCoords

/-- Check if the cell at column x, row y lies in the cached selection
(renderer.ts isInSelection). -/
def isInSelection (st : RendererState) (x : ℕ) (y : ℤ) : Bool :=
  match st.currentSelectionCoords with
  | none => false
  | some sel =>
    if sel.startRow = sel.endRow then
      decide (y = sel.startRow ∧ sel.startCol ≤ (x : ℤ) ∧ (x : ℤ) ≤ sel.endCol)
    else if y = sel.startRow then
      decide (sel.startCol ≤ (x : ℤ))
    else if y = sel.endRow then
      decide ((x : ℤ) ≤ sel.endCol)
    else if sel.startRow < y ∧ y < sel.endRow then
      true
    else
      false

/-- Fill style chosen by renderCellText before drawing: the selection
foreground for selected cells, otherwise the cell foreground with INVERSE
swapping foreground and background. -/
def cellFillStyle (st : RendererState) (cell : GhosttyCell) (x : ℕ) (y : ℤ) : String :=
  if isInSelection st x y then st.theme.selectionForeground
  else if cell.flags &&& CellFlags.INVERSE ≠ 0 then
    rgbToCSS cell.bg_r cell.bg_g cell.bg_b
  else
    rgbToCSS cell.fg_r cell.fg_g cell.fg_b

/-- Effective codepoint of a cell: the JavaScript expression
cell.codepoint with 0 replaced by 32 (space). -/
def effectiveCodepoint (cell : GhosttyCell) : ℕ :=
  if cell.codepoint = 0 then 32 else cell.codepoint

/-- String.fromCodePoint on a single codepoint. -/
def fromCodePoint (codepoint : ℕ) : String :=
  String.mk [Char.ofNat codepoint]

/-- Render a cell background, pass 1 of the two-pass cell draw
(renderer.ts renderCellBackground). -/
def renderCellBackground (st : RendererState) (cell : GhosttyCell) (x : ℕ) (y : ℤ)
    (a : ℚ) : List DrawOp :=
  let cellX := (x : ℚ) * st.metrics.width
  let cellY := (y : ℚ) * st.metrics.height
  let cellWidth := st.metrics.width * (cell.width : ℚ)
  if isInSelection st x y then
    [DrawOp.fillRect cellX cellY cellWidth st.metrics.height
      st.theme.selectionBackground a]
  else
    let bg :=
      if cell.flags &&& CellFlags.INVERSE ≠ 0 then (cell.fg_r, cell.fg_g, cell.fg_b)
      else (cell.bg_r, cell.bg_g, cell.bg_b)
    if bg.1 = 0 ∧ bg.2.1 = 0 ∧ bg.2.2 = 0 then []
    else
      [DrawOp.fillRect cellX cellY cellWidth st.metrics.height
        (rgbToCSS bg.1 bg.2.1 bg.2.2) a]

/-- Render a cell text and decorations, pass 2 of the two-pass cell draw
(renderer.ts renderCellText). The second component of the result is the
globalAlpha of the context after the call, given the value a0 on entry. -/
def renderCellText (st : RendererState) (graphemeString : Option (ℤ → ℤ → String))
    (cell : GhosttyCell) (x : ℕ) (y : ℤ) (a0 : ℚ) : List DrawOp × ℚ :=
  let cellX := (x : ℚ) * st.metrics.width
  let cellY := (y : ℚ) * st.metrics.height
  let cellWidth := st.metrics.width * (cell.width : ℚ)
  if cell.flags &&& CellFlags.INVISIBLE ≠ 0 then ([], a0)
  else
    let fontStyle :=
      (if cell.flags &&& CellFlags.ITALIC ≠ 0 then "italic " else "") ++
      (if cell.flags &&& CellFlags.BOLD ≠ 0 then "bold " else "")
    let font := fontStyle ++ toString st.fontSize ++ "px " ++ st.fontFamily
    let fillStyle := cellFillStyle st cell x y
    let a1 := if cell.flags &&& CellFlags.FAINT ≠ 0 then 1/2 else a0
    let textX := cellX
    let textY := cellY + st.metrics.baseline
    let codepoint := effectiveCodepoint cell
    let fgColor := fillStyle
    let faintReset := fun (a : ℚ) =>
      if cell.flags &&& CellFlags.FAINT ≠ 0 then 1 else a
    if isBoxDrawingChar codepoint then
      (drawBoxChar st.metrics codepoint cellX cellY fgColor a1, faintReset a1)
    else if isBlockElement codepoint then
      let r := drawBlockChar st.metrics codepoint cellX cellY fgColor a1
      (r.1, faintReset r.2)
    else if isBraillePattern codepoint then
      (drawBrailleChar st.metrics codepoint cellX cellY fgColor a1, faintReset a1)
    else if isSextant codepoint then
      (drawSextantChar st.metrics codepoint cellX cellY fgColor a1, faintReset a1)
    else if isCornerTriangle codepoint then
      (drawCornerTriangle st.metrics codepoint cellX cellY fgColor a1, faintReset a1)
    else if isPowerlineChar codepoint then
      (drawPowerlineChar st.metrics codepoint cellX cellY fgColor a1, faintReset a1)
    else if isLegacyWedge codepoint then
      (drawLegacyWedge st.metrics codepoint cellX cellY fgColor a1, faintReset a1)
    else if isOctant codepoint then
      (drawOctant st.metrics codepoint cellX cellY fgColor a1, faintReset a1)
    else if isSmoothMosaic codepoint then
      (drawSmoothMosaic st.metrics codepoint cellX cellY fgColor a1, faintReset a1)
    else if isRoundedCorner codepoint then
      (drawRoundedCorner st.metrics codepoint cellX cellY fgColor a1, faintReset a1)
    else if isDashedLine codepoint then
      (drawDashedLine st.metrics codepoint cellX cellY fgColor a1, faintReset a1)
    else
      let char :=
        if 0 < cell.grapheme_len then
          match graphemeString with
          | some f => f y x
          | none => fromCodePoint codepoint
        else fromCodePoint codepoint
      let textOp := DrawOp.fillText char textX textY fillStyle font a1
      let a2 := faintReset a1
      let underlineOps :=
        if cell.flags &&& CellFlags.UNDERLINE ≠ 0 then
          let underlineY := cellY + st.metrics.baseline + 2
          [DrawOp.strokeLine cellX underlineY (cellX + cellWidth) underlineY
            fillStyle 1 a2]
        else []
      let strikeOps :=
        if cell.flags &&& CellFlags.STRIKETHROUGH ≠ 0 then
          let strikeY := cellY + st.metrics.height / 2
          [DrawOp.strokeLine cellX strikeY (cellX + cellWidth) strikeY fillStyle 1 a2]
        else []
      let hyperlinkOps :=
        if 0 < cell.hyperlink_id then
          if cell.hyperlink_id = st.hoveredHyperlinkId then
            let underlineY := cellY + st.metrics.baseline + 2
            [DrawOp.strokeLine cellX underlineY (cellX + cellWidth) underlineY
              "#4A90E2" 1 a2]
          else []
        else []
      let linkRangeOps :=
        match st.hoveredLinkRange with
        | none => []
        | some range =>
          let isInRange :=
            decide ((y = range.startY ∧ range.startX ≤ (x : ℤ) ∧
                      (y < range.endY ∨ (x : ℤ) ≤ range.endX)) ∨
                    (range.startY < y ∧ y < range.endY) ∨
                    (y = range.endY ∧ (x : ℤ) ≤ range.endX ∧
                      (range.startY < y ∨ range.startX ≤ (x : ℤ))))
          if isInRange then
            let underlineY := cellY + st.metrics.baseline + 2
            [DrawOp.strokeLine cellX underlineY (cellX + cellWidth) underlineY
              "#4A90E2" 1 a2]
          else []
      (textOp :: (underlineOps ++ strikeOps ++ hyperlinkOps ++ linkRangeOps), a2)

/-- Render a single line with the two-pass approach: clear the line
background, paint all cell backgrounds, then all cell text
(renderer.ts renderLine). Cells of width 0 are skipped in both passes. -/
def renderLine (st : RendererState) (graphemeString : Option (ℤ → ℤ → String))
    (line : List GhosttyCell) (y : ℤ) (cols : ℕ) (a0 : ℚ) : List DrawOp × ℚ :=
  let lineY := (y : ℚ) * st.metrics.height
  let clearOp := DrawOp.fillRect 0 lineY ((cols : ℚ) * st.metrics.width)
    st.metrics.height st.theme.background a0
  let bgOps :=
    (line.enum.map fun p =>
      if p.2.width = 0 then [] else renderCellBackground st p.2 p.1 y a0).flatten
  let textState := line.enum.foldl
    (fun (acc : List DrawOp × ℚ) p =>
      if p.2.width = 0 then acc
      else
        let r := renderCellText st graphemeString p.2 p.1 y acc.2
        (acc.1 ++ r.1, r.2))
    ([], a0)
  (clearOp :: (bgOps ++ textState.1), textState.2)

/-- Render the cursor at cell position x, y (renderer.ts renderCursor). -/
def renderCursor (st : RendererState) (x y : ℤ) (a : ℚ) : List DrawOp :=
  let cursorX := (x : ℚ) * st.metrics.width
  let cursorY := (y : ℚ) * st.metrics.height
  match st.cursorStyle with
  | .block =>
      [DrawOp.fillRect cursorX cursorY st.metrics.width st.metrics.height
        st.theme.cursor a]
  | .underline =>
      let underlineHeight := max 2 (jfloor (st.metrics.height * (15/100)))
      [DrawOp.fillRect cursorX (cursorY + st.metrics.height - underlineHeight)
        st.metrics.width underlineHeight st.theme.cursor a]
  | .bar =>
      let barWidth := max 2 (jfloor (st.metrics.width * (15/100)))
      [DrawOp.fillRect cursorX cursorY barWidth st.metrics.height st.theme.cursor a]

/-- Gray scrollbar color with the given alpha component. -/
def rgbaGray (alpha : ℚ) : String :=
  "rgba(128, 128, 128, " ++ toString alpha ++ ")"

/-- Render the scrollbar (renderer.ts renderScrollbar): the gutter is always
cleared first; the track and thumb are drawn only when the opacity is
positive and scrollback exists. -/
def renderScrollbar (st : RendererState) (viewportY : ℚ) (scrollbackLength : ℕ)
    (visibleRows : ℕ) (opacity : ℚ) (a : ℚ) : List DrawOp :=
  let canvasHeight := st.canvasHeight / st.devicePixelRatio
  let canvasWidth := st.canvasWidth / st.devicePixelRatio
  let scrollbarWidth : ℚ := 8
  let scrollbarX := canvasWidth - scrollbarWidth - 4
  let scrollbarPadding : ℚ := 4
  let scrollbarTrackHeight := canvasHeight - scrollbarPadding * 2
  let clearOp := DrawOp.fillRect (scrollbarX - 2) 0 (scrollbarWidth + 6) canvasHeight
    st.theme.background a
  if opacity ≤ 0 ∨ scrollbackLength = 0 then [clearOp]
  else
    let totalLines := (scrollbackLength : ℚ) + (visibleRows : ℚ)
    let thumbHeight := max 20 (((visibleRows : ℚ) / totalLines) * scrollbarTrackHeight)
    let scrollPosition := viewportY / (scrollbackLength : ℚ)
    let thumbY := scrollbarPadding + (scrollbarTrackHeight - thumbHeight) *
      (1 - scrollPosition)
    let trackOp := DrawOp.fillRect scrollbarX scrollbarPadding scrollbarWidth
      scrollbarTrackHeight (rgbaGray ((1/10) * opacity)) a
    let baseOpacity : ℚ := if 0 < viewportY then 1/2 else 3/10
    let thumbOp := DrawOp.fillRect scrollbarX thumbY scrollbarWidth thumbHeight
      (rgbaGray (baseOpacity * opacity)) a
    [clearOp, trackOp, thumbOp]

/-- Cursor position and visibility as returned by getCursor. -/
structure CursorInfo where
  x : ℤ
  y : ℤ
  visible : Bool
deriving Repr, DecidableEq

/-- The IRenderable consumed by render: line access, cursor, dimensions,
dirty bits, full-redraw flag and optional grapheme lookup. -/
structure TerminalBuffer where
  getLine : ℤ → Option (List GhosttyCell)
  cursor : CursorInfo
  cols : ℕ
  rows : ℕ
  isRowDirty : ℤ → Bool
  needsFullRedraw : Bool
  getGraphemeString : Option (ℤ → ℤ → String)

/-- Modelled from the spec: the IRenderable implementation is not under
src/; per the interface contract its clearDirty operation clears every
per-row dirty bit, so afterwards isRowDirty is false for all rows. -/
def clearDirty (buffer : TerminalBuffer) : TerminalBuffer :=
  { buffer with isRowDirty := fun _ => false }

/-- The optional scrollback provider consumed by render. -/
structure ScrollbackProvider where
  getScrollbackLine : ℤ → Option (List GhosttyCell)
  getScrollbackLength : ℕ

/-- Line fetch performed for each row inside render (renderer.ts lines
1107-1128; the hyperlink scan at lines 1018-1036 duplicates the same
logic): scrolled views take the row from scrollback when y < viewportY and
a provider exists, else from the visible screen shifted by the floor of
viewportY; the unscrolled view reads the buffer directly. -/
def fetchLine (buffer : TerminalBuffer) (scrollbackProvider : Option ScrollbackProvider)
    (scrollbackLength : ℕ) (viewportY : ℚ) (y : ℕ) : Option (List GhosttyCell) :=
  if 0 < viewportY then
    match scrollbackProvider with
    | some p =>
      if (y : ℚ) < viewportY then
        p.getScrollbackLine ((scrollbackLength : ℤ) - ⌊viewportY⌋ + (y : ℤ))
      else
        buffer.getLine ((y : ℤ) - ⌊viewportY⌋)
    | none => buffer.getLine ((y : ℤ) - ⌊viewportY⌋)
  else
    buffer.getLine (y : ℤ)

/-- Drawing commands of one render call, segmented by the phase of the
render method that issued them, in source order. -/
structure Frame where
  resizeOps : List DrawOp
  cursorLineOps : List DrawOp
  rowOps : List DrawOp
  cursorOps : List DrawOp
  scrollbarOps : List DrawOp
deriving Repr, DecidableEq

/-- All drawing commands of a frame in issue order. -/
def Frame.allOps (f : Frame) : List DrawOp :=
  f.resizeOps ++ f.cursorLineOps ++ f.rowOps ++ f.cursorOps ++ f.scrollbarOps

/-- Result of a render call: the drawing commands, the updated renderer
state, the buffer after clearDirty, and the final globalAlpha. -/
structure RenderResult where
  frame : Frame
  state : RendererState
  buffer : TerminalBuffer
  alpha : ℚ

/-- Resize the canvas to fit the terminal dimensions (renderer.ts resize):
updates the device-pixel canvas size and fills the background. -/
def resize (st : RendererState) (cols rows : ℕ) : List DrawOp × RendererState :=
  let cssWidth := (cols : ℚ) * st.metrics.width
  let cssHeight := (rows : ℚ) * st.metrics.height
  ([DrawOp.fillRect 0 0 cssWidth cssHeight st.theme.background 1],
   { st with canvasWidth := cssWidth * st.devicePixelRatio,
             canvasHeight := cssHeight * st.devicePixelRatio })

/-- Scrollback length used by render: the provider value or 0. -/
def scrollbackLengthOf (scrollbackProvider : Option ScrollbackProvider) : ℕ :=
  match scrollbackProvider with
  | some p => p.getScrollbackLength
  | none => 0

/-- Resize stage of render (renderer.ts lines 942-950): when the canvas
pixel dimensions do not match cols times cell width times the device pixel
ratio (and likewise for the height), resize and force a full render. -/
def resizeStep (st : RendererState) (cols rows : ℕ) (forceAll : Bool) :
    List DrawOp × RendererState × Bool :=
  let needsResize :=
    st.canvasWidth ≠ (cols : ℚ) * st.metrics.width * st.devicePixelRatio ∨
    st.canvasHeight ≠ (rows : ℚ) * st.metrics.height * st.devicePixelRatio
  if needsResize then
    let r := resize st cols rows
    (r.1, r.2, true)
  else ([], st, forceAll)

/-- Viewport stage of render (renderer.ts lines 952-956): force a full
render when viewportY changed since the last frame. -/
def viewportStep (st : RendererState) (viewportY : ℚ) (forceAll : Bool) :
    RendererState × Bool :=
  if viewportY ≠ st.lastViewportY then
    ({ st with lastViewportY := viewportY }, true)
  else (st, forceAll)

/-- Cursor line stage of render (renderer.ts lines 958-979): when the
cursor moved or blinks, eagerly redraw the current cursor row, and the
previous cursor row when the cursor changed lines, unless a full render is
coming or the row is already dirty. -/
def cursorLineStep (st : RendererState) (buffer : TerminalBuffer) (forceAll : Bool)
    (cols : ℕ) (a0 : ℚ) : List DrawOp × ℚ :=
  let cursor := buffer.cursor
  let cursorMoved :=
    cursor.x ≠ st.lastCursorPosition.1 ∨ cursor.y ≠ st.lastCursorPosition.2
  if cursorMoved ∨ st.cursorBlink then
    let firstPass :=
      if ¬forceAll ∧ ¬buffer.isRowDirty cursor.y then
        match buffer.getLine cursor.y with
        | some line => renderLine st buffer.getGraphemeString line cursor.y cols a0
        | none => ([], a0)
      else ([], a0)
    let secondPass :=
      if cursorMoved ∧ st.lastCursorPosition.2 ≠ cursor.y then
        if ¬forceAll ∧ ¬buffer.isRowDirty st.lastCursorPosition.2 then
          match buffer.getLine st.lastCursorPosition.2 with
          | some line =>
              renderLine st buffer.getGraphemeString line st.lastCursorPosition.2
                cols firstPass.2
          | none => ([], firstPass.2)
        else ([], firstPass.2)
      else ([], firstPass.2)
    (firstPass.1 ++ secondPass.1, secondPass.2)
  else ([], a0)

/-- Selection stage of render (renderer.ts lines 981-1007): cache the
selection coordinates for the frame, mark the selection rows and the dirty
selection rows for redraw, and clear the dirty row set of the selection
manager when it is nonempty. -/
def selectionStep (st : RendererState) : Finset ℤ × RendererState :=
  let hasSelection :=
    match st.selectionManager with
    | some sm => sm.hasSelection
    | none => false
  let currentSelectionCoords :=
    if hasSelection then
      match st.selectionManager with
      | some sm => some sm.selectionCoords
      | none => none
    else none
  let st3 := { st with currentSelectionCoords := currentSelectionCoords }
  let selectionRowsBase : Finset ℤ :=
    match currentSelectionCoords with
    | some coords => Finset.Icc coords.startRow coords.endRow
    | none => ∅
  match st3.selectionManager with
  | some sm =>
    if sm.dirtySelectionRows ≠ ∅ then
      let cleared : SelectionManager := { sm with dirtySelectionRows := ∅ }
      (selectionRowsBase ∪ sm.dirtySelectionRows,
       { st3 with selectionManager := some cleared })
    else (selectionRowsBase, st3)
  | none => (selectionRowsBase, st3)

/-- Hyperlink stage of render (renderer.ts lines 1009-1073): when the
hovered hyperlink id changed, scan the visible lines for rows holding the
previous or the new id; when the hovered link range changed, mark the rows
of both ranges; update the previous-value fields. -/
def hyperlinkStep (st : RendererState) (buffer : TerminalBuffer)
    (scrollbackProvider : Option ScrollbackProvider) (scrollbackLength : ℕ)
    (viewportY : ℚ) (rows : ℕ) : Finset ℤ × RendererState :=
  let hyperlinkChanged := st.hoveredHyperlinkId ≠ st.previousHoveredHyperlinkId
  let linkRangeChanged := st.hoveredLinkRange ≠ st.previousHoveredLinkRange
  let rowHasHoveredLink : ℕ → Bool := fun y =>
    match fetchLine buffer scrollbackProvider scrollbackLength viewportY y with
    | some line =>
        line.any fun cell =>
          decide (cell.hyperlink_id = st.hoveredHyperlinkId ∨
                  cell.hyperlink_id = st.previousHoveredHyperlinkId)
    | none => false
  let hyperlinkRowsA : Finset ℤ :=
    if hyperlinkChanged then
      ((Finset.range rows).filter (fun y => rowHasHoveredLink y = true)).image
        Int.ofNat
    else ∅
  let st5 :=
    if hyperlinkChanged then
      { st with previousHoveredHyperlinkId := st.hoveredHyperlinkId }
    else st
  let hyperlinkRowsB : Finset ℤ :=
    if linkRangeChanged then
      (match st5.previousHoveredLinkRange with
       | some r => Finset.Icc r.startY r.endY
       | none => ∅) ∪
      (match st5.hoveredLinkRange with
       | some r => Finset.Icc r.startY r.endY
       | none => ∅)
    else ∅
  let st6 :=
    if linkRangeChanged then
      { st5 with previousHoveredLinkRange := st5.hoveredLinkRange }
    else st5
  (hyperlinkRowsA ∪ hyperlinkRowsB, st6)

/-- Row predicate of render (renderer.ts lines 1083-1088): a row needs a
render when scrolled, forced, dirty, in the selection rows or in the
hyperlink rows. -/
def needsRender (buffer : TerminalBuffer) (viewportY : ℚ) (forceAll : Bool)
    (selectionRows hyperlinkRows : Finset ℤ) (y : ℕ) : Bool :=
  if 0 < viewportY then true
  else
    forceAll || buffer.isRowDirty y ||
    decide ((y : ℤ) ∈ selectionRows) || decide ((y : ℤ) ∈ hyperlinkRows)

/-- Membership in the rows-to-render set (renderer.ts lines 1082-1096): a
row is rendered when it or one of its in-range neighbors needs a render,
the neighbor expansion absorbing glyph overflow. -/
def rowSelected (buffer : TerminalBuffer) (viewportY : ℚ) (forceAll : Bool)
    (selectionRows hyperlinkRows : Finset ℤ) (rows y : ℕ) : Bool :=
  needsRender buffer viewportY forceAll selectionRows hyperlinkRows y ||
  (decide (y + 1 < rows) &&
    needsRender buffer viewportY forceAll selectionRows hyperlinkRows (y + 1)) ||
  (decide (0 < y) &&
    needsRender buffer viewportY forceAll selectionRows hyperlinkRows (y - 1))

/-- Row loop of render (renderer.ts lines 1098-1133): render every selected
row whose line fetch succeeds, threading the context alpha. -/
def rowsStep (st : RendererState) (buffer : TerminalBuffer)
    (scrollbackProvider : Option ScrollbackProvider) (scrollbackLength : ℕ)
    (viewportY : ℚ) (forceAll : Bool) (selectionRows hyperlinkRows : Finset ℤ)
    (a0 : ℚ) : List DrawOp × ℚ :=
  (List.range buffer.rows).foldl
    (fun (acc : List DrawOp × ℚ) y =>
      if rowSelected buffer viewportY forceAll selectionRows hyperlinkRows
          buffer.rows y then
        match fetchLine buffer scrollbackProvider scrollbackLength viewportY y with
        | some line =>
            let r := renderLine st buffer.getGraphemeString line (y : ℤ) buffer.cols
              acc.2
            (acc.1 ++ r.1, r.2)
        | none => acc
      else acc)
    ([], a0)

/-- Render the terminal buffer (renderer.ts render), composed of the stage
functions above in source order. The context globalAlpha is assumed to be 1
on entry, its steady-state value between frames. -/
def render (st0 : RendererState) (buffer : TerminalBuffer) (forceAll0 : Bool)
    (viewportY : ℚ) (scrollbackProvider : Option ScrollbackProvider)
    (scrollbarOpacity : ℚ) : RenderResult :=
  let cursor := buffer.cursor
  let scrollbackLength := scrollbackLengthOf scrollbackProvider
  let r1 := resizeStep st0 buffer.cols buffer.rows
    (forceAll0 || buffer.needsFullRedraw)
  let r2 := viewportStep r1.2.1 viewportY r1.2.2
  let cl := cursorLineStep r2.1 buffer r2.2 buffer.cols 1
  let sel := selectionStep r2.1
  let hl := hyperlinkStep sel.2 buffer scrollbackProvider scrollbackLength
    viewportY buffer.rows
  let rp := rowsStep hl.2 buffer scrollbackProvider scrollbackLength viewportY
    r2.2 sel.1 hl.1 cl.2
  let shouldDrawCursor :=
    viewportY = 0 ∧ cursor.visible ∧ hl.2.cursorVisible ∧ ¬hl.2.cursorSuppressed
  let cursorOps :=
    if shouldDrawCursor then renderCursor hl.2 cursor.x cursor.y rp.2 else []
  let scrollbarOps :=
    match scrollbackProvider with
    | some _ =>
      if 0 < scrollbarOpacity then
        renderScrollbar hl.2 viewportY scrollbackLength buffer.rows
          scrollbarOpacity rp.2
      else []
    | none => []
  { frame := ⟨r1.1, cl.1, rp.1, cursorOps, scrollbarOps⟩,
    state := { hl.2 with lastCursorPosition := (cursor.x, cursor.y) },
    buffer := clearDirty buffer,
    alpha := rp.2 }

/-- Thumb height as worded by the spec: max(20, (visibleRows/totalLines)
times trackHeight) where totalLines = scrollbackLength + visibleRows. -/
def specThumbHeight (visibleRows scrollbackLength : ℕ) (trackHeight : ℚ) : ℚ :=
  max 20 (((visibleRows : ℚ) / ((scrollbackLength : ℚ) + (visibleRows : ℚ))) *
    trackHeight)

/-- Thumb top edge as worded by the spec: trackTop + (trackHeight −
thumbHeight) · (1 − viewportY / scrollbackLength). -/
def specThumbTop (trackTop trackHeight thumbHeight viewportY : ℚ)
    (scrollbackLength : ℕ) : ℚ :=
  trackTop + (trackHeight - thumbHeight) * (1 - viewportY / (scrollbackLength : ℚ))

/-- Definition following the claim C2 wording: at viewportY = 0 the row
comes from buffer.getLine y; otherwise, with a provider present, rows with
y < ⌊viewportY⌋ come from the scrollback at offset scrollbackLength −
⌊viewportY⌋ + y, the rest from buffer.getLine (y − ⌊viewportY⌋). -/
def fetchLineClaim (buffer : TerminalBuffer)
    (scrollbackProvider : Option ScrollbackProvider) (scrollbackLength : ℕ)
    (viewportY : ℚ) (y : ℕ) : Option (List GhosttyCell) :=
  if viewportY = 0 then buffer.getLine (y : ℤ)
  else
    match scrollbackProvider with
    | some p =>
      if (y : ℤ) < ⌊viewportY⌋ then
        p.getScrollbackLine ((scrollbackLength : ℤ) - ⌊viewportY⌋ + (y : ℤ))
      else buffer.getLine ((y : ℤ) - ⌊viewportY⌋)
    | none => buffer.getLine ((y : ℤ) - ⌊viewportY⌋)

/-- Definition following the claim C2 wording amended at the comparison:
the scrollback branch is taken exactly when y < viewportY itself, not its
floor. -/
def fetchLineAmended (buffer : TerminalBuffer)
    (scrollbackProvider : Option ScrollbackProvider) (scrollbackLength : ℕ)
    (viewportY : ℚ) (y : ℕ) : Option (List GhosttyCell) :=
  if viewportY = 0 then buffer.getLine (y : ℤ)
  else
    match scrollbackProvider with
    | some p =>
      if (y : ℚ) < viewportY then
        p.getScrollbackLine ((scrollbackLength : ℤ) - ⌊viewportY⌋ + (y : ℤ))
      else buffer.getLine ((y : ℤ) - ⌊viewportY⌋)
    | none => buffer.getLine ((y : ℤ) - ⌊viewportY⌋)

/-- The dispatch predicate of renderCellText: true exactly when the
codepoint is handled by one of the procedural branches (in chain order). -/
def isProceduralGlyph (cp : ℕ) : Bool :=
  isBoxDrawingChar cp || isBlockElement cp || isBraillePattern cp ||
  isSextant cp || isCornerTriangle cp || isPowerlineChar cp ||
  isLegacyWedge cp || isOctant cp || isSmoothMosaic cp ||
  isRoundedCorner cp || isDashedLine cp

/-- Test for a one pixel wide stroked line from x0 to x1 at height uy: the
shape of the underline decoration of the text pass. -/
def isUnderlineStrokeAt (x0 x1 uy : ℚ) (op : DrawOp) : Bool :=
  match op with
  | .strokeLine a b c d _ lw _ => a == x0 && b == uy && c == x1 && d == uy && lw == 1
  | _ => false

/-- Test for an axis aligned rectangle spanning the full cell width from
the left edge or the full cell height from the top edge. -/
def spansFullAxis (m : FontMetrics) (cellX cellY : ℚ) (op : DrawOp) : Bool :=
  match op with
  | .fillRect rx ry rw rh _ _ =>
      (rx == cellX && rw == m.width) || (ry == cellY && rh == m.height)
  | _ => false

/-- Concrete font metrics for the concrete instances below: cell width 10,
height 20, baseline 16. -/
def testMetrics : FontMetrics := ⟨10, 20, 16⟩

/-- Concrete theme for the concrete instances below. -/
def testTheme : Theme := ⟨"#1e1e1e", "#ffffff", "#d4d4d4", "#1e1e1e"⟩

/-- Concrete renderer state for the concrete instances below. -/
def testState : RendererState :=
  { metrics := testMetrics, theme := testTheme, devicePixelRatio := 1,
    canvasWidth := 800, canvasHeight := 480, fontSize := 15,
    fontFamily := "monospace", cursorStyle := .block, cursorBlink := false,
    cursorVisible := true, cursorSuppressed := false,
    lastCursorPosition := (0, 0), lastViewportY := 0,
    hoveredHyperlinkId := 0, previousHoveredHyperlinkId := 0,
    hoveredLinkRange := none, previousHoveredLinkRange := none,
    selectionManager := none, currentSelectionCoords := none }

/-- Concrete cell of width 1 with the given codepoint and flags, white
foreground on default black background, no hyperlink. -/
def testCell (cp fl : ℕ) : GhosttyCell := ⟨cp, 0, 1, 255, 255, 255, 0, 0, 0, fl, 0⟩

/-- Concrete buffer whose every line holds the single codepoint 100 cell. -/
def testBuffer : TerminalBuffer :=
  { getLine := fun _ => some [testCell 100 0], cursor := ⟨0, 0, true⟩, cols := 1,
    rows := 4, isRowDirty := fun _ => false, needsFullRedraw := false,
    getGraphemeString := none }

/-- Concrete scrollback whose every line holds the single codepoint 200
cell, of length 10. -/
def testScrollback : ScrollbackProvider := ⟨fun _ => some [testCell 200 0], 10⟩

/-- Buffer reporting zero dimensions, a visible cursor and no lines. -/
def zeroDimsBuffer : TerminalBuffer :=
  { getLine := fun _ => none, cursor := ⟨0, 0, true⟩, cols := 0, rows := 0,
    isRowDirty := fun _ => false, needsFullRedraw := false,
    getGraphemeString := none }

/-- Renderer state whose canvas is 100 by 100 device pixels, so that zero
dimensions trigger a resize. -/
def zeroDimsState : RendererState :=
  { testState with canvasWidth := 100, canvasHeight := 100 }

/-- Renderer state whose canvas is already 0 by 0 device pixels. -/
def zeroDimsMatchedState : RendererState :=
  { testState with canvasWidth := 0, canvasHeight := 0 }

/-- Buffer reporting zero dimensions with a hidden cursor and no lines. -/
def zeroDimsHiddenCursorBuffer : TerminalBuffer :=
  { zeroDimsBuffer with cursor := ⟨0, 0, false⟩ }

lemma resizeStep_cursorVisible (st : RendererState) (c r : ℕ) (f : Bool) :
    (resizeStep st c r f).2.1.cursorVisible = st.cursorVisible := by
  simp only [resizeStep, resize]
  split_ifs <;> rfl

lemma resizeStep_cursorSuppressed (st : RendererState) (c r : ℕ) (f : Bool) :
    (resizeStep st c r f).2.1.cursorSuppressed = st.cursorSuppressed := by
  simp only [resizeStep, resize]
  split_ifs <;> rfl

lemma viewportStep_cursorVisible (st : RendererState) (v : ℚ) (f : Bool) :
    (viewportStep st v f).1.cursorVisible = st.cursorVisible := by
  simp only [viewportStep]
  split_ifs <;> rfl

lemma viewportStep_cursorSuppressed (st : RendererState) (v : ℚ) (f : Bool) :
    (viewportStep st v f).1.cursorSuppressed = st.cursorSuppressed := by
  simp only [viewportStep]
  split_ifs <;> rfl

lemma selectionStep_cursorVisible (st : RendererState) :
    (selectionStep st).2.cursorVisible = st.cursorVisible := by
  simp only [selectionStep]
  rcases hsm : st.selectionManager with _ | sm <;> simp [hsm] <;> split_ifs <;> rfl

lemma selectionStep_cursorSuppressed (st : RendererState) :
    (selectionStep st).2.cursorSuppressed = st.cursorSuppressed := by
  simp only [selectionStep]
  rcases hsm : st.selectionManager with _ | sm <;> simp [hsm] <;> split_ifs <;> rfl

lemma hyperlinkStep_cursorVisible (st : RendererState) (b : TerminalBuffer)
    (sb : Option ScrollbackProvider) (l : ℕ) (v : ℚ) (rows : ℕ) :
    (hyperlinkStep st b sb l v rows).2.cursorVisible = st.cursorVisible := by
  simp only [hyperlinkStep]
  split_ifs <;> rfl

lemma hyperlinkStep_cursorSuppressed (st : RendererState) (b : TerminalBuffer)
    (sb : Option ScrollbackProvider) (l : ℕ) (v : ℚ) (rows : ℕ) :
    (hyperlinkStep st b sb l v rows).2.cursorSuppressed = st.cursorSuppressed := by
  simp only [hyperlinkStep]
  split_ifs <;> rfl

lemma renderCursor_ne_nil (st : RendererState) (x y : ℤ) (a : ℚ) :
    renderCursor st x y a ≠ [] := by
  unfold renderCursor
  cases st.cursorStyle <;> simp

/-- C7: on every call, render draws the cursor if and only if viewportY is
0, the buffer cursor is visible, the blink state cursorVisible holds and
the cursor is not suppressed. -/
theorem render_draws_cursor_iff (st0 : RendererState) (buffer : TerminalBuffer)
    (forceAll0 : Bool) (viewportY : ℚ) (sb : Option ScrollbackProvider) (op : ℚ) :
    (render st0 buffer forceAll0 viewportY sb op).frame.cursorOps ≠ [] ↔
      (viewportY = 0 ∧ buffer.cursor.visible = true ∧ st0.cursorVisible = true ∧
       st0.cursorSuppressed = false) := by
  simp only [render]
  have hv : ∀ (st : RendererState), (hyperlinkStep (selectionStep (viewportStep
      (resizeStep st buffer.cols buffer.rows (forceAll0 || buffer.needsFullRedraw)).2.1
      viewportY
      (resizeStep st buffer.cols buffer.rows (forceAll0 || buffer.needsFullRedraw)).2.2).1).2
      buffer sb (scrollbackLengthOf sb) viewportY buffer.rows).2.cursorVisible =
      st.cursorVisible := by
    intro st
    rw [hyperlinkStep_cursorVisible, selectionStep_cursorVisible,
      viewportStep_cursorVisible, resizeStep_cursorVisible]
  have hs : ∀ (st : RendererState), (hyperlinkStep (selectionStep (viewportStep
      (resizeStep st buffer.cols buffer.rows (forceAll0 || buffer.needsFullRedraw)).2.1
      viewportY
      (resizeStep st buffer.cols buffer.rows (forceAll0 || buffer.needsFullRedraw)).2.2).1).2
      buffer sb (scrollbackLengthOf sb) viewportY buffer.rows).2.cursorSuppressed =
      st.cursorSuppressed := by
    intro st
    rw [hyperlinkStep_cursorSuppressed, selectionStep_cursorSuppressed,
      viewportStep_cursorSuppressed, resizeStep_cursorSuppressed]
  split
  case isTrue h =>
    simp only [ne_eq, renderCursor_ne_nil, not_false_eq_true, true_iff]
    obtain ⟨h1, h2, h3, h4⟩ := h
    rw [hv] at h3
    rw [hs] at h4
    exact ⟨h1, h2, h3, by simpa using h4⟩
  case isFalse h =>
    simp only [ne_eq, not_true_eq_false, false_iff]
    intro hc
    apply h
    obtain ⟨h1, h2, h3, h4⟩ := hc
    refine ⟨h1, h2, ?_, ?_⟩
    · rw [hv]
      exact h3
    · rw [hs]
      simp [h4]

lemma resizeStep_selectionManager (st : RendererState) (c r : ℕ) (f : Bool) :
    (resizeStep st c r f).2.1.selectionManager = st.selectionManager := by
  simp only [resizeStep, resize]
  split_ifs <;> rfl

lemma viewportStep_selectionManager (st : RendererState) (v : ℚ) (f : Bool) :
    (viewportStep st v f).1.selectionManager = st.selectionManager := by
  simp only [viewportStep]
  split_ifs <;> rfl

lemma selectionStep_selectionManager (st : RendererState) :
    (selectionStep st).2.selectionManager =
      st.selectionManager.map (fun sm => { sm with dirtySelectionRows := ∅ }) := by
  simp only [selectionStep]
  rcases hsm : st.selectionManager with _ | sm
  · simp [hsm]
  · obtain ⟨hs, sc, dr⟩ := sm
    simp only [hsm, Option.map_some]
    split_ifs <;> simp_all

lemma hyperlinkStep_selectionManager (st : RendererState) (b : TerminalBuffer)
    (sb : Option ScrollbackProvider) (l : ℕ) (v : ℚ) (rows : ℕ) :
    (hyperlinkStep st b sb l v rows).2.selectionManager = st.selectionManager := by
  simp only [hyperlinkStep]
  split_ifs <;> rfl

/-- C3: for every render call, whatever the flags and rows, the returned
buffer has every dirty bit cleared (isRowDirty is false for every row) and
the selection manager, when present, has its dirty selection row set
cleared. -/
theorem render_clears_dirty_state (st0 : RendererState) (buffer : TerminalBuffer)
    (forceAll0 : Bool) (viewportY : ℚ) (sb : Option ScrollbackProvider) (op : ℚ) :
    (∀ y, (render st0 buffer forceAll0 viewportY sb op).buffer.isRowDirty y = false) ∧
    (render st0 buffer forceAll0 viewportY sb op).state.selectionManager =
      st0.selectionManager.map (fun sm => { sm with dirtySelectionRows := ∅ }) := by
  constructor
  · intro y
    simp [render, clearDirty]
  · simp only [render]
    rw [show ∀ (s : RendererState) (p : ℤ × ℤ),
        ({ s with lastCursorPosition := p } : RendererState).selectionManager =
        s.selectionManager from fun _ _ => rfl]
    rw [hyperlinkStep_selectionManager, selectionStep_selectionManager,
      viewportStep_selectionManager, resizeStep_selectionManager]

/-- C8: whenever the scrollbar thumb is drawn (positive opacity and
nonzero scrollback, under the render guard that a provider is present),
the thumb is the last command, its height is max(20,
(visibleRows/totalLines) times trackHeight) with totalLines =
scrollbackLength + visibleRows and trackHeight = canvasHeight − 8 CSS px,
and its top edge is trackTop + (trackHeight − thumbHeight) · (1 −
viewportY/scrollbackLength) with trackTop = 4 CSS px. -/
theorem renderScrollbar_thumb_geometry (st : RendererState) (viewportY : ℚ)
    (scrollbackLength visibleRows : ℕ) (opacity a : ℚ)
    (hop : 0 < opacity) (hL : scrollbackLength ≠ 0) :
    ∃ c,
      (renderScrollbar st viewportY scrollbackLength visibleRows opacity a).getLast? =
        some (DrawOp.fillRect (st.canvasWidth / st.devicePixelRatio - 8 - 4)
          (specThumbTop 4 (st.canvasHeight / st.devicePixelRatio - 8)
            (specThumbHeight visibleRows scrollbackLength
              (st.canvasHeight / st.devicePixelRatio - 8))
            viewportY scrollbackLength)
          8
          (specThumbHeight visibleRows scrollbackLength
            (st.canvasHeight / st.devicePixelRatio - 8)) c a) ∧
      (renderScrollbar st viewportY scrollbackLength visibleRows opacity a).length = 3 := by
  refine ⟨rgbaGray ((if 0 < viewportY then (1/2 : ℚ) else 3/10) * opacity), ?_, ?_⟩ <;>
  · simp only [renderScrollbar]
    rw [if_neg (by push_neg; exact ⟨by linarith, hL⟩)]
    simp [specThumbTop, specThumbHeight]
    try norm_num

/-- C2 amended: the per-row line fetch of render equals the claim
formula with the comparison amended from y < the floor of viewportY to
y < viewportY itself; scrollback offset and screen row both use the floor,
as claimed. -/
theorem fetchLine_eq_amended (buffer : TerminalBuffer)
    (scrollbackProvider : Option ScrollbackProvider) (scrollbackLength : ℕ)
    (viewportY : ℚ) (y : ℕ) (hv : 0 ≤ viewportY) :
    fetchLine buffer scrollbackProvider scrollbackLength viewportY y =
      fetchLineAmended buffer scrollbackProvider scrollbackLength viewportY y := by
  unfold fetchLine fetchLineAmended
  rcases lt_or_eq_of_le hv with h | h
  · rw [if_pos h, if_neg (by linarith)]
  · rw [if_neg (by linarith), if_pos h.symm]

lemma viewportStep_canvas (st : RendererState) (v : ℚ) (f : Bool) :
    (viewportStep st v f).1.canvasWidth = st.canvasWidth ∧
    (viewportStep st v f).1.canvasHeight = st.canvasHeight := by
  simp only [viewportStep]
  split_ifs <;> exact ⟨rfl, rfl⟩

lemma selectionStep_canvas (st : RendererState) :
    (selectionStep st).2.canvasWidth = st.canvasWidth ∧
    (selectionStep st).2.canvasHeight = st.canvasHeight := by
  simp only [selectionStep]
  rcases hsm : st.selectionManager with _ | sm <;> simp [hsm] <;> split_ifs <;>
    exact ⟨rfl, rfl⟩

lemma hyperlinkStep_canvas (st : RendererState) (b : TerminalBuffer)
    (sb : Option ScrollbackProvider) (l : ℕ) (v : ℚ) (rows : ℕ) :
    (hyperlinkStep st b sb l v rows).2.canvasWidth = st.canvasWidth ∧
    (hyperlinkStep st b sb l v rows).2.canvasHeight = st.canvasHeight := by
  simp only [hyperlinkStep]
  split_ifs <;> exact ⟨rfl, rfl⟩

lemma resizeStep_matched (st : RendererState) (c r : ℕ) (f : Bool)
    (hW : st.canvasWidth = (c : ℚ) * st.metrics.width * st.devicePixelRatio)
    (hH : st.canvasHeight = (r : ℚ) * st.metrics.height * st.devicePixelRatio) :
    resizeStep st c r f = ([], st, f) := by
  simp only [resizeStep]
  rw [if_neg]
  push_neg
  exact ⟨hW, hH⟩

lemma cursorLineStep_no_lines (st : RendererState) (buffer : TerminalBuffer)
    (f : Bool) (cols : ℕ) (a : ℚ) (hlines : ∀ y, buffer.getLine y = none) :
    cursorLineStep st buffer f cols a = ([], a) := by
  simp only [cursorLineStep, hlines]
  split_ifs <;> rfl

/-- C6 amended: with zero dimensions render paints no rows; and when
additionally the canvas pixel size already matches (0 by 0), the cursor is
not drawn, every line fetch returns null and no scrollback provider is
given, render issues no drawing command and leaves the canvas size
untouched. It is not a no-op unconditionally, see the counterexample. -/
theorem render_zero_dims_amended (st0 : RendererState) (buffer : TerminalBuffer)
    (forceAll0 : Bool) (viewportY : ℚ) (op : ℚ)
    (hcols : buffer.cols = 0) (hrows : buffer.rows = 0)
    (hW : st0.canvasWidth = 0) (hH : st0.canvasHeight = 0)
    (hcur : buffer.cursor.visible = false)
    (hlines : ∀ y, buffer.getLine y = none) :
    (render st0 buffer forceAll0 viewportY none op).frame.allOps = [] ∧
    (render st0 buffer forceAll0 viewportY none op).state.canvasWidth =
      st0.canvasWidth ∧
    (render st0 buffer forceAll0 viewportY none op).state.canvasHeight =
      st0.canvasHeight := by
  have hr : resizeStep st0 buffer.cols buffer.rows
      (forceAll0 || buffer.needsFullRedraw) = ([], st0,
        forceAll0 || buffer.needsFullRedraw) := by
    apply resizeStep_matched <;> simp [hcols, hrows, hW, hH]
  refine ⟨?_, ?_, ?_⟩
  · simp only [render, Frame.allOps]
    rw [hr, cursorLineStep_no_lines _ _ _ _ _ hlines]
    simp [rowsStep, hrows, hcur]
  · simp only [render, hr]
    rw [show ∀ (s : RendererState) (p : ℤ × ℤ),
        ({ s with lastCursorPosition := p } : RendererState).canvasWidth =
        s.canvasWidth from fun _ _ => rfl]
    rw [(hyperlinkStep_canvas _ _ _ _ _ _).1, (selectionStep_canvas _).1,
      (viewportStep_canvas _ _ _).1]
  · simp only [render, hr]
    rw [show ∀ (s : RendererState) (p : ℤ × ℤ),
        ({ s with lastCursorPosition := p } : RendererState).canvasHeight =
        s.canvasHeight from fun _ _ => rfl]
    rw [(hyperlinkStep_canvas _ _ _ _ _ _).2, (selectionStep_canvas _).2,
      (viewportStep_canvas _ _ _).2]

lemma drawBoxChar_all_fillRect (m : FontMetrics) (cp : ℕ) (x y : ℚ) (c : String)
    (a : ℚ) : (drawBoxChar m cp x y c a).all DrawOp.isFillRect = true := by
  unfold drawBoxChar
  rcases getBoxLines cp with _ | lines
  · rfl
  · simp only [List.all_append, apply_ite (List.all · DrawOp.isFillRect),
      List.all_cons, List.all_nil, DrawOp.isFillRect, Bool.and_true, ite_self,
      Bool.and_self, Bool.true_and, Bool.and_true]

lemma drawBlockChar_all_fillRect (m : FontMetrics) (cp : ℕ) (x y : ℚ) (c : String)
    (a : ℚ) : (drawBlockChar m cp x y c a).1.all DrawOp.isFillRect = true := by
  unfold drawBlockChar
  rcases getBlockType cp with _ | bt
  · rfl
  · rcases bt <;>
      simp only [List.all_append, apply_ite (List.all · DrawOp.isFillRect),
        List.all_cons, List.all_nil, DrawOp.isFillRect, Bool.and_true, ite_self,
        Bool.and_self, Bool.true_and]

lemma drawBlockChar_snd_one (m : FontMetrics) (cp : ℕ) (x y : ℚ) (c : String) :
    (drawBlockChar m cp x y c 1).2 = 1 := by
  unfold drawBlockChar
  rcases getBlockType cp with _ | bt
  · rfl
  · rcases bt <;> rfl

lemma drawBrailleChar_no_stroke (m : FontMetrics) (cp : ℕ) (x y : ℚ) (c : String)
    (a : ℚ) :
    (drawBrailleChar m cp x y c a).all (fun op => !op.isStrokeLine) = true := by
  unfold drawBrailleChar
  simp only [List.all_eq_true, List.mem_filterMap, List.mem_range]
  rintro op ⟨i, -, hop⟩
  split at hop
  · cases hop
    rfl
  · cases hop

lemma drawSextantChar_no_stroke (m : FontMetrics) (cp : ℕ) (x y : ℚ) (c : String)
    (a : ℚ) :
    (drawSextantChar m cp x y c a).all (fun op => !op.isStrokeLine) = true := by
  unfold drawSextantChar
  simp only [List.all_eq_true, List.mem_filterMap, List.mem_range]
  rintro op ⟨i, -, hop⟩
  split at hop
  · cases hop
    rfl
  · cases hop

lemma drawOctant_no_stroke (m : FontMetrics) (cp : ℕ) (x y : ℚ) (c : String)
    (a : ℚ) :
    (drawOctant m cp x y c a).all (fun op => !op.isStrokeLine) = true := by
  unfold drawOctant
  simp only [List.all_eq_true, List.mem_filterMap, List.mem_range]
  rintro op ⟨i, -, hop⟩
  split at hop
  · cases hop
    rfl
  · cases hop

lemma drawCornerTriangle_no_stroke (m : FontMetrics) (cp : ℕ) (x y : ℚ)
    (c : String) (a : ℚ) :
    (drawCornerTriangle m cp x y c a).all (fun op => !op.isStrokeLine) = true := by
  unfold drawCornerTriangle
  rcases getTriangleCorner cp with _ | corner
  · rfl
  · rcases corner <;> rfl

lemma drawPowerlineChar_no_stroke (m : FontMetrics) (cp : ℕ) (x y : ℚ)
    (c : String) (a : ℚ) :
    (drawPowerlineChar m cp x y c a).all (fun op => !op.isStrokeLine) = true := by
  unfold drawPowerlineChar
  rcases getPowerlineDirection cp with _ | d
  · rfl
  · rcases d <;> rfl

lemma drawLegacyWedge_no_stroke (m : FontMetrics) (cp : ℕ) (x y : ℚ)
    (c : String) (a : ℚ) :
    (drawLegacyWedge m cp x y c a).all (fun op => !op.isStrokeLine) = true := by
  unfold drawLegacyWedge
  rcases getLegacyWedgeType cp with _ | w
  · rfl
  · rcases w with ⟨f, sz⟩ | ⟨u, l⟩
    · rcases f <;> rfl
    · rfl

lemma drawSmoothMosaic_no_stroke (m : FontMetrics) (cp : ℕ) (x y : ℚ)
    (c : String) (a : ℚ) :
    (drawSmoothMosaic m cp x y c a).all (fun op => !op.isStrokeLine) = true := by
  simp only [drawSmoothMosaic]
  split_ifs
  · split <;> rfl
  · rfl

lemma all_fillRect_no_stroke (l : List DrawOp)
    (h : l.all DrawOp.isFillRect = true) :
    l.all (fun op => !op.isStrokeLine) = true := by
  simp only [List.all_eq_true] at h ⊢
  intro op hop
  have := h op hop
  cases op <;> simp_all [DrawOp.isFillRect, DrawOp.isStrokeLine]

lemma isPowerlineChar_range (cp : ℕ) (h : isPowerlineChar cp = true) :
    (0xe0b0 ≤ cp ∧ cp ≤ 0xe0b6) ∨ (0x25b2 ≤ cp ∧ cp ≤ 0x25c4) := by
  unfold isPowerlineChar at h
  split at h <;> simp_all <;> omega

lemma renderCellText_box (st : RendererState) (gf : Option (ℤ → ℤ → String))
    (cell : GhosttyCell) (x : ℕ) (y : ℤ) (a : ℚ)
    (hI : cell.flags &&& CellFlags.INVISIBLE = 0)
    (hB : isBoxDrawingChar (effectiveCodepoint cell) = true) :
    renderCellText st gf cell x y a =
      (drawBoxChar st.metrics (effectiveCodepoint cell)
        ((x : ℚ) * st.metrics.width) ((y : ℚ) * st.metrics.height)
        (cellFillStyle st cell x y)
        (if cell.flags &&& CellFlags.FAINT ≠ 0 then 1/2 else a),
       if cell.flags &&& CellFlags.FAINT ≠ 0 then 1 else a) := by
  simp only [renderCellText, hI, hB]
  simp
  try split_ifs <;> rfl

lemma renderCellText_block (st : RendererState) (gf : Option (ℤ → ℤ → String))
    (cell : GhosttyCell) (x : ℕ) (y : ℤ) (a : ℚ)
    (hI : cell.flags &&& CellFlags.INVISIBLE = 0)
    (hB : isBlockElement (effectiveCodepoint cell) = true) :
    renderCellText st gf cell x y a =
      ((drawBlockChar st.metrics (effectiveCodepoint cell)
        ((x : ℚ) * st.metrics.width) ((y : ℚ) * st.metrics.height)
        (cellFillStyle st cell x y)
        (if cell.flags &&& CellFlags.FAINT ≠ 0 then 1/2 else a)).1,
       if cell.flags &&& CellFlags.FAINT ≠ 0 then 1 else
         (drawBlockChar st.metrics (effectiveCodepoint cell)
           ((x : ℚ) * st.metrics.width) ((y : ℚ) * st.metrics.height)
           (cellFillStyle st cell x y)
           (if cell.flags &&& CellFlags.FAINT ≠ 0 then 1/2 else a)).2) := by
  have h1 : isBoxDrawingChar (effectiveCodepoint cell) = false := by
    simp only [isBlockElement, decide_eq_true_eq] at hB
    simp only [isBoxDrawingChar, decide_eq_false_iff_not]
    omega
  simp only [renderCellText, hI, hB, h1]
  simp
  try split_ifs <;> rfl

lemma renderCellText_braille (st : RendererState) (gf : Option (ℤ → ℤ → String))
    (cell : GhosttyCell) (x : ℕ) (y : ℤ) (a : ℚ)
    (hI : cell.flags &&& CellFlags.INVISIBLE = 0)
    (hB : isBraillePattern (effectiveCodepoint cell) = true) :
    renderCellText st gf cell x y a =
      (drawBrailleChar st.metrics (effectiveCodepoint cell)
        ((x : ℚ) * st.metrics.width) ((y : ℚ) * st.metrics.height)
        (cellFillStyle st cell x y)
        (if cell.flags &&& CellFlags.FAINT ≠ 0 then 1/2 else a),
       if cell.flags &&& CellFlags.FAINT ≠ 0 then 1 else a) := by
  have hb : 0x2800 ≤ effectiveCodepoint cell ∧ effectiveCodepoint cell ≤ 0x28ff := by
    simpa [isBraillePattern] using hB
  have h1 : isBoxDrawingChar (effectiveCodepoint cell) = false := by
    simp only [isBoxDrawingChar, decide_eq_false_iff_not]; omega
  have h2 : isBlockElement (effectiveCodepoint cell) = false := by
    simp only [isBlockElement, decide_eq_false_iff_not]; omega
  simp only [renderCellText, hI, hB, h1, h2]
  simp
  try split_ifs <;> rfl

lemma renderCellText_sextant (st : RendererState) (gf : Option (ℤ → ℤ → String))
    (cell : GhosttyCell) (x : ℕ) (y : ℤ) (a : ℚ)
    (hI : cell.flags &&& CellFlags.INVISIBLE = 0)
    (hB : isSextant (effectiveCodepoint cell) = true) :
    renderCellText st gf cell x y a =
      (drawSextantChar st.metrics (effectiveCodepoint cell)
        ((x : ℚ) * st.metrics.width) ((y : ℚ) * st.metrics.height)
        (cellFillStyle st cell x y)
        (if cell.flags &&& CellFlags.FAINT ≠ 0 then 1/2 else a),
       if cell.flags &&& CellFlags.FAINT ≠ 0 then 1 else a) := by
  have hb : 0x1fb00 ≤ effectiveCodepoint cell ∧ effectiveCodepoint cell ≤ 0x1fb3b := by
    simpa [isSextant] using hB
  have h1 : isBoxDrawingChar (effectiveCodepoint cell) = false := by
    simp only [isBoxDrawingChar, decide_eq_false_iff_not]; omega
  have h2 : isBlockElement (effectiveCodepoint cell) = false := by
    simp only [isBlockElement, decide_eq_false_iff_not]; omega
  have h3 : isBraillePattern (effectiveCodepoint cell) = false := by
    simp only [isBraillePattern, decide_eq_false_iff_not]; omega
  simp only [renderCellText, hI, hB, h1, h2, h3]
  simp
  try split_ifs <;> rfl

lemma renderCellText_cornerTriangle (st : RendererState) (gf : Option (ℤ → ℤ → String))
    (cell : GhosttyCell) (x : ℕ) (y : ℤ) (a : ℚ)
    (hI : cell.flags &&& CellFlags.INVISIBLE = 0)
    (hB : isCornerTriangle (effectiveCodepoint cell) = true) :
    renderCellText st gf cell x y a =
      (drawCornerTriangle st.metrics (effectiveCodepoint cell)
        ((x : ℚ) * st.metrics.width) ((y : ℚ) * st.metrics.height)
        (cellFillStyle st cell x y)
        (if cell.flags &&& CellFlags.FAINT ≠ 0 then 1/2 else a),
       if cell.flags &&& CellFlags.FAINT ≠ 0 then 1 else a) := by
  have hb : 0x25e2 ≤ effectiveCodepoint cell ∧ effectiveCodepoint cell ≤ 0x25e5 := by
    simpa [isCornerTriangle] using hB
  have h1 : isBoxDrawingChar (effectiveCodepoint cell) = false := by
    simp only [isBoxDrawingChar, decide_eq_false_iff_not]; omega
  have h2 : isBlockElement (effectiveCodepoint cell) = false := by
    simp only [isBlockElement, decide_eq_false_iff_not]; omega
  have h3 : isBraillePattern (effectiveCodepoint cell) = false := by
    simp only [isBraillePattern, decide_eq_false_iff_not]; omega
  have h4 : isSextant (effectiveCodepoint cell) = false := by
    simp only [isSextant, decide_eq_false_iff_not]; omega
  simp only [renderCellText, hI, hB, h1, h2, h3, h4]
  simp
  try split_ifs <;> rfl

lemma renderCellText_powerline (st : RendererState) (gf : Option (ℤ → ℤ → String))
    (cell : GhosttyCell) (x : ℕ) (y : ℤ) (a : ℚ)
    (hI : cell.flags &&& CellFlags.INVISIBLE = 0)
    (hB : isPowerlineChar (effectiveCodepoint cell) = true) :
    renderCellText st gf cell x y a =
      (drawPowerlineChar st.metrics (effectiveCodepoint cell)
        ((x : ℚ) * st.metrics.width) ((y : ℚ) * st.metrics.height)
        (cellFillStyle st cell x y)
        (if cell.flags &&& CellFlags.FAINT ≠ 0 then 1/2 else a),
       if cell.flags &&& CellFlags.FAINT ≠ 0 then 1 else a) := by
  have hb := isPowerlineChar_range _ hB
  have h1 : isBoxDrawingChar (effectiveCodepoint cell) = false := by
    simp only [isBoxDrawingChar, decide_eq_false_iff_not]; omega
  have h2 : isBlockElement (effectiveCodepoint cell) = false := by
    simp only [isBlockElement, decide_eq_false_iff_not]; omega
  have h3 : isBraillePattern (effectiveCodepoint cell) = false := by
    simp only [isBraillePattern, decide_eq_false_iff_not]; omega
  have h4 : isSextant (effectiveCodepoint cell) = false := by
    simp only [isSextant, decide_eq_false_iff_not]; omega
  have h5 : isCornerTriangle (effectiveCodepoint cell) = false := by
    simp only [isCornerTriangle, decide_eq_false_iff_not]; omega
  simp only [renderCellText, hI, hB, h1, h2, h3, h4, h5]
  simp
  try split_ifs <;> rfl

lemma renderCellText_wedge (st : RendererState) (gf : Option (ℤ → ℤ → String))
    (cell : GhosttyCell) (x : ℕ) (y : ℤ) (a : ℚ)
    (hI : cell.flags &&& CellFlags.INVISIBLE = 0)
    (hB : isLegacyWedge (effectiveCodepoint cell) = true) :
    renderCellText st gf cell x y a =
      (drawLegacyWedge st.metrics (effectiveCodepoint cell)
        ((x : ℚ) * st.metrics.width) ((y : ℚ) * st.metrics.height)
        (cellFillStyle st cell x y)
        (if cell.flags &&& CellFlags.FAINT ≠ 0 then 1/2 else a),
       if cell.flags &&& CellFlags.FAINT ≠ 0 then 1 else a) := by
  have hb : 0x1fb3c ≤ effectiveCodepoint cell ∧ effectiveCodepoint cell ≤ 0x1fb8b := by
    simpa [isLegacyWedge] using hB
  have h1 : isBoxDrawingChar (effectiveCodepoint cell) = false := by
    simp only [isBoxDrawingChar, decide_eq_false_iff_not]; omega
  have h2 : isBlockElement (effectiveCodepoint cell) = false := by
    simp only [isBlockElement, decide_eq_false_iff_not]; omega
  have h3 : isBraillePattern (effectiveCodepoint cell) = false := by
    simp only [isBraillePattern, decide_eq_false_iff_not]; omega
  have h4 : isSextant (effectiveCodepoint cell) = false := by
    simp only [isSextant, decide_eq_false_iff_not]; omega
  have h5 : isCornerTriangle (effectiveCodepoint cell) = false := by
    simp only [isCornerTriangle, decide_eq_false_iff_not]; omega
  have hp : isPowerlineChar (effectiveCodepoint cell) = false := by
    cases hpc : isPowerlineChar (effectiveCodepoint cell)
    · rfl
    · rcases isPowerlineChar_range _ hpc with ⟨u1, u2⟩ | ⟨u1, u2⟩ <;> omega
  simp only [renderCellText, hI, hB, h1, h2, h3, h4, h5, hp]
  simp
  try split_ifs <;> rfl

lemma renderCellText_octant (st : RendererState) (gf : Option (ℤ → ℤ → String))
    (cell : GhosttyCell) (x : ℕ) (y : ℤ) (a : ℚ)
    (hI : cell.flags &&& CellFlags.INVISIBLE = 0)
    (hB : isOctant (effectiveCodepoint cell) = true) :
    renderCellText st gf cell x y a =
      (drawOctant st.metrics (effectiveCodepoint cell)
        ((x : ℚ) * st.metrics.width) ((y : ℚ) * st.metrics.height)
        (cellFillStyle st cell x y)
        (if cell.flags &&& CellFlags.FAINT ≠ 0 then 1/2 else a),
       if cell.flags &&& CellFlags.FAINT ≠ 0 then 1 else a) := by
  have hb : 0x1cd00 ≤ effectiveCodepoint cell ∧ effectiveCodepoint cell ≤ 0x1cde5 := by
    simpa [isOctant] using hB
  have h1 : isBoxDrawingChar (effectiveCodepoint cell) = false := by
    simp only [isBoxDrawingChar, decide_eq_false_iff_not]; omega
  have h2 : isBlockElement (effectiveCodepoint cell) = false := by
    simp only [isBlockElement, decide_eq_false_iff_not]; omega
  have h3 : isBraillePattern (effectiveCodepoint cell) = false := by
    simp only [isBraillePattern, decide_eq_false_iff_not]; omega
  have h4 : isSextant (effectiveCodepoint cell) = false := by
    simp only [isSextant, decide_eq_false_iff_not]; omega
  have h5 : isCornerTriangle (effectiveCodepoint cell) = false := by
    simp only [isCornerTriangle, decide_eq_false_iff_not]; omega
  have h6 : isLegacyWedge (effectiveCodepoint cell) = false := by
    simp only [isLegacyWedge, decide_eq_false_iff_not]; omega
  have hp : isPowerlineChar (effectiveCodepoint cell) = false := by
    cases hpc : isPowerlineChar (effectiveCodepoint cell)
    · rfl
    · rcases isPowerlineChar_range _ hpc with ⟨u1, u2⟩ | ⟨u1, u2⟩ <;> omega
  simp only [renderCellText, hI, hB, h1, h2, h3, h4, h5, h6, hp]
  simp
  try split_ifs <;> rfl

lemma renderCellText_mosaic (st : RendererState) (gf : Option (ℤ → ℤ → String))
    (cell : GhosttyCell) (x : ℕ) (y : ℤ) (a : ℚ)
    (hI : cell.flags &&& CellFlags.INVISIBLE = 0)
    (hB : isSmoothMosaic (effectiveCodepoint cell) = true) :
    renderCellText st gf cell x y a =
      (drawSmoothMosaic st.metrics (effectiveCodepoint cell)
        ((x : ℚ) * st.metrics.width) ((y : ℚ) * st.metrics.height)
        (cellFillStyle st cell x y)
        (if cell.flags &&& CellFlags.FAINT ≠ 0 then 1/2 else a),
       if cell.flags &&& CellFlags.FAINT ≠ 0 then 1 else a) := by
  have hb : 0x1fb90 ≤ effectiveCodepoint cell ∧ effectiveCodepoint cell ≤ 0x1fbaf := by
    simpa [isSmoothMosaic] using hB
  have h1 : isBoxDrawingChar (effectiveCodepoint cell) = false := by
    simp only [isBoxDrawingChar, decide_eq_false_iff_not]; omega
  have h2 : isBlockElement (effectiveCodepoint cell) = false := by
    simp only [isBlockElement, decide_eq_false_iff_not]; omega
  have h3 : isBraillePattern (effectiveCodepoint cell) = false := by
    simp only [isBraillePattern, decide_eq_false_iff_not]; omega
  have h4 : isSextant (effectiveCodepoint cell) = false := by
    simp only [isSextant, decide_eq_false_iff_not]; omega
  have h5 : isCornerTriangle (effectiveCodepoint cell) = false := by
    simp only [isCornerTriangle, decide_eq_false_iff_not]; omega
  have h6 : isLegacyWedge (effectiveCodepoint cell) = false := by
    simp only [isLegacyWedge, decide_eq_false_iff_not]; omega
  have h7 : isOctant (effectiveCodepoint cell) = false := by
    simp only [isOctant, decide_eq_false_iff_not]; omega
  have hp : isPowerlineChar (effectiveCodepoint cell) = false := by
    cases hpc : isPowerlineChar (effectiveCodepoint cell)
    · rfl
    · rcases isPowerlineChar_range _ hpc with ⟨u1, u2⟩ | ⟨u1, u2⟩ <;> omega
  simp only [renderCellText, hI, hB, h1, h2, h3, h4, h5, h6, h7, hp]
  simp
  try split_ifs <;> rfl

lemma any_underline_false_of_no_stroke (l : List DrawOp) (x0 x1 uy : ℚ)
    (h : l.all (fun op => !op.isStrokeLine) = true) :
    l.any (isUnderlineStrokeAt x0 x1 uy) = false := by
  simp only [List.all_eq_true] at h
  simp only [List.any_eq_false]
  intro op hop
  have := h op hop
  cases op <;> simp_all [isUnderlineStrokeAt, DrawOp.isStrokeLine]

lemma renderCellText_textPath_snd (st : RendererState)
    (gf : Option (ℤ → ℤ → String)) (cell : GhosttyCell) (x : ℕ) (y : ℤ) (a : ℚ)
    (hI : cell.flags &&& CellFlags.INVISIBLE = 0)
    (hP : isProceduralGlyph (effectiveCodepoint cell) = false) :
    (renderCellText st gf cell x y a).2 =
      if cell.flags &&& CellFlags.FAINT ≠ 0 then 1 else a := by
  simp only [isProceduralGlyph, Bool.or_eq_false_iff] at hP
  obtain ⟨⟨⟨⟨⟨⟨⟨⟨⟨⟨p1, p2⟩, p3⟩, p4⟩, p5⟩, p6⟩, p7⟩, p8⟩, p9⟩, p10⟩, p11⟩ := hP
  simp only [renderCellText, hI, p1, p2, p3, p4, p5, p6, p7, p8, p9, p10, p11]
  simp
  try split_ifs <;> rfl

lemma renderCellText_textPath_underline (st : RendererState)
    (gf : Option (ℤ → ℤ → String)) (cell : GhosttyCell) (x : ℕ) (y : ℤ) (a : ℚ)
    (hI : cell.flags &&& CellFlags.INVISIBLE = 0)
    (hP : isProceduralGlyph (effectiveCodepoint cell) = false)
    (hU : cell.flags &&& CellFlags.UNDERLINE ≠ 0) :
    (renderCellText st gf cell x y a).1.any
      (isUnderlineStrokeAt ((x : ℚ) * st.metrics.width)
        ((x : ℚ) * st.metrics.width + st.metrics.width * (cell.width : ℚ))
        ((y : ℚ) * st.metrics.height + st.metrics.baseline + 2)) = true := by
  simp only [isProceduralGlyph, Bool.or_eq_false_iff] at hP
  obtain ⟨⟨⟨⟨⟨⟨⟨⟨⟨⟨p1, p2⟩, p3⟩, p4⟩, p5⟩, p6⟩, p7⟩, p8⟩, p9⟩, p10⟩, p11⟩ := hP
  simp only [renderCellText, hI, p1, p2, p3, p4, p5, p6, p7, p8, p9, p10, p11]
  simp [hU, isUnderlineStrokeAt, List.any_cons, List.any_append]

lemma isBoxDrawingChar_of_rounded (cp : ℕ) (h : isRoundedCorner cp = true) :
    isBoxDrawingChar cp = true := by
  simp only [isRoundedCorner, decide_eq_true_eq] at h
  simp only [isBoxDrawingChar, decide_eq_true_eq]
  omega

lemma isBoxDrawingChar_of_dashed (cp : ℕ) (h : isDashedLine cp = true) :
    isBoxDrawingChar cp = true := by
  simp only [isDashedLine, decide_eq_true_eq] at h
  simp only [isBoxDrawingChar, decide_eq_true_eq]
  omega

/-- C10: renderCellText restores the context globalAlpha on every return
path: with alpha 1 on entry it is 1 after the call, for every cell,
including FAINT cells, every procedural glyph family, and shade blocks. -/
theorem renderCellText_restores_alpha (st : RendererState)
    (gf : Option (ℤ → ℤ → String)) (cell : GhosttyCell) (x : ℕ) (y : ℤ) :
    (renderCellText st gf cell x y 1).2 = 1 := by
  by_cases hI : cell.flags &&& CellFlags.INVISIBLE = 0
  case neg =>
    simp only [renderCellText, if_pos (by simpa using hI)]
  case pos =>
  by_cases hP : isProceduralGlyph (effectiveCodepoint cell) = true
  case pos =>
    simp only [isProceduralGlyph, Bool.or_eq_true] at hP
    rcases hP with ((((((((((hb | hb) | hb) | hb) | hb) | hb) | hb) | hb) | hb)
      | hb) | hb)
    · rw [renderCellText_box st gf cell x y 1 hI hb]
      split_ifs <;> rfl
    · rw [renderCellText_block st gf cell x y 1 hI hb]
      dsimp only
      split_ifs with hf
      · rfl
      · exact drawBlockChar_snd_one st.metrics (effectiveCodepoint cell)
          ((x : ℚ) * st.metrics.width) ((y : ℚ) * st.metrics.height)
          (cellFillStyle st cell x y)
    · rw [renderCellText_braille st gf cell x y 1 hI hb]
      split_ifs <;> rfl
    · rw [renderCellText_sextant st gf cell x y 1 hI hb]
      split_ifs <;> rfl
    · rw [renderCellText_cornerTriangle st gf cell x y 1 hI hb]
      split_ifs <;> rfl
    · rw [renderCellText_powerline st gf cell x y 1 hI hb]
      split_ifs <;> rfl
    · rw [renderCellText_wedge st gf cell x y 1 hI hb]
      split_ifs <;> rfl
    · rw [renderCellText_octant st gf cell x y 1 hI hb]
      split_ifs <;> rfl
    · rw [renderCellText_mosaic st gf cell x y 1 hI hb]
      split_ifs <;> rfl
    · rw [renderCellText_box st gf cell x y 1 hI (isBoxDrawingChar_of_rounded _ hb)]
      split_ifs <;> rfl
    · rw [renderCellText_box st gf cell x y 1 hI (isBoxDrawingChar_of_dashed _ hb)]
      split_ifs <;> rfl
  case neg =>
    rw [renderCellText_textPath_snd st gf cell x y 1 hI (by simpa using hP)]
    split_ifs <;> rfl

set_option maxRecDepth 4000 in
/-- C5 amended: with UNDERLINE set and INVISIBLE clear, the text pass draws
the 1 px underline from cellX to cellX + cellWidth at cellY + baseline + 2
exactly when the codepoint is not handled by a procedural branch; the
procedural branches return before the decoration code and stroke nothing. -/
theorem renderCellText_underline_iff_text_path (st : RendererState)
    (gf : Option (ℤ → ℤ → String)) (cell : GhosttyCell) (x : ℕ) (y : ℤ) (a : ℚ)
    (hU : cell.flags &&& CellFlags.UNDERLINE ≠ 0)
    (hI : cell.flags &&& CellFlags.INVISIBLE = 0) :
    (renderCellText st gf cell x y a).1.any
      (isUnderlineStrokeAt ((x : ℚ) * st.metrics.width)
        ((x : ℚ) * st.metrics.width + st.metrics.width * (cell.width : ℚ))
        ((y : ℚ) * st.metrics.height + st.metrics.baseline + 2)) =
      !(isProceduralGlyph (effectiveCodepoint cell)) := by
  by_cases hP : isProceduralGlyph (effectiveCodepoint cell) = true
  case pos =>
    rw [hP]
    simp only [Bool.not_true]
    have hP2 := hP
    simp only [isProceduralGlyph, Bool.or_eq_true] at hP2
    rcases hP2 with ((((((((((hb | hb) | hb) | hb) | hb) | hb) | hb) | hb) | hb)
      | hb) | hb)
    · rw [renderCellText_box st gf cell x y a hI hb]
      exact any_underline_false_of_no_stroke _ _ _ _
        (all_fillRect_no_stroke _ (drawBoxChar_all_fillRect _ _ _ _ _ _))
    · rw [renderCellText_block st gf cell x y a hI hb]
      exact any_underline_false_of_no_stroke _ _ _ _
        (all_fillRect_no_stroke _ (drawBlockChar_all_fillRect _ _ _ _ _ _))
    · rw [renderCellText_braille st gf cell x y a hI hb]
      exact any_underline_false_of_no_stroke _ _ _ _
        (drawBrailleChar_no_stroke _ _ _ _ _ _)
    · rw [renderCellText_sextant st gf cell x y a hI hb]
      exact any_underline_false_of_no_stroke _ _ _ _
        (drawSextantChar_no_stroke _ _ _ _ _ _)
    · rw [renderCellText_cornerTriangle st gf cell x y a hI hb]
      exact any_underline_false_of_no_stroke _ _ _ _
        (drawCornerTriangle_no_stroke _ _ _ _ _ _)
    · rw [renderCellText_powerline st gf cell x y a hI hb]
      exact any_underline_false_of_no_stroke _ _ _ _
        (drawPowerlineChar_no_stroke _ _ _ _ _ _)
    · rw [renderCellText_wedge st gf cell x y a hI hb]
      exact any_underline_false_of_no_stroke _ _ _ _
        (drawLegacyWedge_no_stroke _ _ _ _ _ _)
    · rw [renderCellText_octant st gf cell x y a hI hb]
      exact any_underline_false_of_no_stroke _ _ _ _
        (drawOctant_no_stroke _ _ _ _ _ _)
    · rw [renderCellText_mosaic st gf cell x y a hI hb]
      dsimp only
      exact any_underline_false_of_no_stroke _ _ _ _
        (drawSmoothMosaic_no_stroke _ _ _ _ _ _)
    · rw [renderCellText_box st gf cell x y a hI (isBoxDrawingChar_of_rounded _ hb)]
      exact any_underline_false_of_no_stroke _ _ _ _
        (all_fillRect_no_stroke _ (drawBoxChar_all_fillRect _ _ _ _ _ _))
    · rw [renderCellText_box st gf cell x y a hI (isBoxDrawingChar_of_dashed _ hb)]
      exact any_underline_false_of_no_stroke _ _ _ _
        (all_fillRect_no_stroke _ (drawBoxChar_all_fillRect _ _ _ _ _ _))
  case neg =>
    have hP2 : isProceduralGlyph (effectiveCodepoint cell) = false := by
      simpa using hP
    rw [hP2]
    simp only [Bool.not_false]
    exact renderCellText_textPath_underline st gf cell x y a hI hP2 hU

/-- C1 amended: the rounded corner codepoints are rendered by the square
box drawing procedure (axis aligned filled rectangles from
BOX_DRAWING_MAP), because the box branch precedes the rounded corner
branch in renderCellText and its range contains them. -/
theorem renderCellText_rounded_uses_box_procedure (st : RendererState)
    (gf : Option (ℤ → ℤ → String)) (cell : GhosttyCell) (x : ℕ) (y : ℤ) (a : ℚ)
    (h1 : 0x256d ≤ cell.codepoint) (h2 : cell.codepoint ≤ 0x2570)
    (hI : cell.flags &&& CellFlags.INVISIBLE = 0) :
    (renderCellText st gf cell x y a).1 =
      drawBoxChar st.metrics cell.codepoint ((x : ℚ) * st.metrics.width)
        ((y : ℚ) * st.metrics.height) (cellFillStyle st cell x y)
        (if cell.flags &&& CellFlags.FAINT ≠ 0 then 1/2 else a) ∧
    (renderCellText st gf cell x y a).1.all DrawOp.isFillRect = true := by
  have he : effectiveCodepoint cell = cell.codepoint := by
    unfold effectiveCodepoint
    rw [if_neg]
    omega
  have hb : isBoxDrawingChar (effectiveCodepoint cell) = true := by
    rw [he]
    simp only [isBoxDrawingChar, decide_eq_true_eq]
    omega
  rw [renderCellText_box st gf cell x y a hI hb]
  dsimp only
  rw [he]
  exact ⟨rfl, drawBoxChar_all_fillRect _ _ _ _ _ _⟩

/-- C9: a codepoint of the box range without a BOX_DRAWING_MAP entry
produces no drawing command in the text pass: the box procedure returns
without filling anything and the host text path is never reached. -/
theorem renderCellText_unmapped_box_draws_nothing (st : RendererState)
    (gf : Option (ℤ → ℤ → String)) (cell : GhosttyCell) (x : ℕ) (y : ℤ) (a : ℚ)
    (h1 : 0x2500 ≤ cell.codepoint) (h2 : cell.codepoint ≤ 0x257f)
    (hmap : BOX_DRAWING_MAP cell.codepoint = none) :
    (renderCellText st gf cell x y a).1 = [] := by
  by_cases hI : cell.flags &&& CellFlags.INVISIBLE = 0
  case pos =>
    have he : effectiveCodepoint cell = cell.codepoint := by
      unfold effectiveCodepoint
      rw [if_neg]
      omega
    have hb : isBoxDrawingChar (effectiveCodepoint cell) = true := by
      rw [he]
      simp only [isBoxDrawingChar, decide_eq_true_eq]
      omega
    rw [renderCellText_box st gf cell x y a hI hb]
    dsimp only
    unfold drawBoxChar getBoxLines
    rw [he, hmap]
  case neg =>
    simp only [renderCellText, if_pos (by simpa using hI)]

lemma drawBoxChar_same_horizontal (m : FontMetrics) (cp : ℕ) (cx cy : ℚ)
    (c : String) (a : ℚ) (s : LineStyle)
    (hm : getBoxLines cp = some ⟨.none, s, .none, s⟩)
    (h1 : s ≠ .none) (h2 : s ≠ .double) :
    (drawBoxChar m cp cx cy c a).length = 1 ∧
    (drawBoxChar m cp cx cy c a).all (spansFullAxis m cx cy) = true := by
  unfold drawBoxChar
  rw [hm]
  cases s <;> simp_all [spansFullAxis]

lemma drawBoxChar_same_vertical (m : FontMetrics) (cp : ℕ) (cx cy : ℚ)
    (c : String) (a : ℚ) (s : LineStyle)
    (hm : getBoxLines cp = some ⟨s, .none, s, .none⟩)
    (h1 : s ≠ .none) (h2 : s ≠ .double) :
    (drawBoxChar m cp cx cy c a).length = 1 ∧
    (drawBoxChar m cp cx cy c a).all (spansFullAxis m cx cy) = true := by
  unfold drawBoxChar
  rw [hm]
  cases s <;> simp_all [spansFullAxis]

/-- C4 amended: the dashed box line codepoints are dispatched to the box
procedure (the dashed branch of renderCellText being unreachable) which
draws them as a single continuous full length line, not as separate
dashes. -/
theorem renderCellText_dashed_draws_single_solid_line (st : RendererState)
    (gf : Option (ℤ → ℤ → String)) (cell : GhosttyCell) (x : ℕ) (y : ℤ) (a : ℚ)
    (hD : isDashedLine cell.codepoint = true)
    (hI : cell.flags &&& CellFlags.INVISIBLE = 0) :
    (renderCellText st gf cell x y a).1 =
      drawBoxChar st.metrics cell.codepoint ((x : ℚ) * st.metrics.width)
        ((y : ℚ) * st.metrics.height) (cellFillStyle st cell x y)
        (if cell.flags &&& CellFlags.FAINT ≠ 0 then 1/2 else a) ∧
    (renderCellText st gf cell x y a).1.length = 1 ∧
    (renderCellText st gf cell x y a).1.all
      (spansFullAxis st.metrics ((x : ℚ) * st.metrics.width)
        ((y : ℚ) * st.metrics.height)) = true := by
  have hr : (0x2504 ≤ cell.codepoint ∧ cell.codepoint ≤ 0x250b) ∨
      (0x254c ≤ cell.codepoint ∧ cell.codepoint ≤ 0x254f) := by
    simpa [isDashedLine] using hD
  have he : effectiveCodepoint cell = cell.codepoint := by
    unfold effectiveCodepoint
    rw [if_neg]
    omega
  have hb : isBoxDrawingChar (effectiveCodepoint cell) = true := by
    rw [he]
    simp only [isBoxDrawingChar, decide_eq_true_eq]
    omega
  rw [renderCellText_box st gf cell x y a hI hb]
  dsimp only
  rw [he]
  refine ⟨rfl, ?_⟩
  generalize cell.codepoint = n at hr
  rcases hr with ⟨lo, hi⟩ | ⟨lo, hi⟩ <;> interval_cases n <;>
    first
    | exact drawBoxChar_same_horizontal _ _ _ _ _ _ _ rfl (by simp) (by simp)
    | exact drawBoxChar_same_vertical _ _ _ _ _ _ _ rfl (by simp) (by simp)


lemma drawBoxChar_ne_drawRoundedCorner (m : FontMetrics) (cx cy cx2 cy2 : ℚ)
    (c c2 : String) (a a2 : ℚ) :
    drawBoxChar m 0x256d cx cy c a ≠ drawRoundedCorner m 0x256d cx2 cy2 c2 a2 := by
  intro h
  have hlen := congrArg List.length h
  have h2 : (drawBoxChar m 0x256d cx cy c a).length = 2 := by
    unfold drawBoxChar
    rw [show getBoxLines 0x256d = some ⟨.none, .light, .light, .none⟩ from rfl]
    simp
  have h3 : (drawRoundedCorner m 0x256d cx2 cy2 c2 a2).length = 3 := by
    unfold drawRoundedCorner
    rw [show getRoundedCornerType 0x256d = some .downRight from rfl]
    simp
  rw [h2, h3] at hlen
  exact absurd hlen (by norm_num)

lemma drawBoxChar_ne_drawDashedLine (m : FontMetrics) (cx cy cx2 cy2 : ℚ)
    (c c2 : String) (a a2 : ℚ) :
    drawBoxChar m 0x2504 cx cy c a ≠ drawDashedLine m 0x2504 cx2 cy2 c2 a2 := by
  intro h
  have hlen := congrArg List.length h
  have h2 : (drawBoxChar m 0x2504 cx cy c a).length = 1 := by
    unfold drawBoxChar
    rw [show getBoxLines 0x2504 = some ⟨.none, .light, .none, .light⟩ from rfl]
    simp
  have h3 : (drawDashedLine m 0x2504 cx2 cy2 c2 a2).length = 3 := by
    unfold drawDashedLine
    rw [show getDashedLineConfig 0x2504 = some ⟨.horizontal, .light, 3⟩ from rfl]
    simp
  rw [h2, h3] at hlen
  exact absurd hlen (by norm_num)

/-- C1 counterexample: at the concrete state and the rounded corner cell
U+256D, the text pass output is not the rounded corner procedure output:
the drawn commands are all filled rectangles, no stroked arc. -/
theorem rounded_corner_claim_counterexample :
    (renderCellText testState none (testCell 0x256d 0) 0 0 1).1 ≠
      drawRoundedCorner testState.metrics 0x256d 0 0
        (cellFillStyle testState (testCell 0x256d 0) 0 0) 1 ∧
    (renderCellText testState none (testCell 0x256d 0) 0 0 1).1.all
      DrawOp.isFillRect = true := by
  have hI : (testCell 0x256d 0).flags &&& CellFlags.INVISIBLE = 0 := by decide
  have hb : isBoxDrawingChar (effectiveCodepoint (testCell 0x256d 0)) = true := by
    decide
  rw [renderCellText_box testState none (testCell 0x256d 0) 0 0 1 hI hb]
  dsimp only
  rw [show effectiveCodepoint (testCell 0x256d 0) = 0x256d from rfl]
  exact ⟨drawBoxChar_ne_drawRoundedCorner _ _ _ _ _ _ _ _ _,
    drawBoxChar_all_fillRect _ _ _ _ _ _⟩

/-- C5 counterexample: at the concrete state, a box drawing cell U+2500
with the UNDERLINE flag set and INVISIBLE clear produces no stroke at all;
in particular no 1 px underline from 0 to 10 at y = 18 = baseline + 2. -/
theorem underline_claim_counterexample :
    (renderCellText testState none (testCell 0x2500 CellFlags.UNDERLINE) 0 0 1).1.any
      (isUnderlineStrokeAt 0 10 18) = false ∧
    (renderCellText testState none (testCell 0x2500 CellFlags.UNDERLINE) 0 0 1).1.all
      (fun op => !op.isStrokeLine) = true := by
  have hI : (testCell 0x2500 CellFlags.UNDERLINE).flags &&& CellFlags.INVISIBLE
      = 0 := by decide
  have hb : isBoxDrawingChar
      (effectiveCodepoint (testCell 0x2500 CellFlags.UNDERLINE)) = true := by decide
  rw [renderCellText_box testState none (testCell 0x2500 CellFlags.UNDERLINE)
    0 0 1 hI hb]
  dsimp only
  exact ⟨any_underline_false_of_no_stroke _ _ _ _
      (all_fillRect_no_stroke _ (drawBoxChar_all_fillRect _ _ _ _ _ _)),
    all_fillRect_no_stroke _ (drawBoxChar_all_fillRect _ _ _ _ _ _)⟩

/-- C4 counterexample: at the concrete state, the dashed cell U+2504 is
not drawn as the three dashes of drawDashedLine: the text pass issues a
single command where the dashed procedure would issue three. -/
theorem dashed_line_claim_counterexample :
    (renderCellText testState none (testCell 0x2504 0) 0 0 1).1 ≠
      drawDashedLine testState.metrics 0x2504 0 0
        (cellFillStyle testState (testCell 0x2504 0) 0 0) 1 ∧
    (renderCellText testState none (testCell 0x2504 0) 0 0 1).1.length = 1 ∧
    (drawDashedLine testState.metrics 0x2504 0 0
      (cellFillStyle testState (testCell 0x2504 0) 0 0) 1).length = 3 := by
  have hI : (testCell 0x2504 0).flags &&& CellFlags.INVISIBLE = 0 := by decide
  have hb : isBoxDrawingChar (effectiveCodepoint (testCell 0x2504 0)) = true := by
    decide
  rw [renderCellText_box testState none (testCell 0x2504 0) 0 0 1 hI hb]
  dsimp only
  rw [show effectiveCodepoint (testCell 0x2504 0) = 0x2504 from rfl]
  have hlen3 : (drawDashedLine testState.metrics 0x2504 0 0
      (cellFillStyle testState (testCell 0x2504 0) 0 0) 1).length = 3 := by
    unfold drawDashedLine
    rw [show getDashedLineConfig 0x2504 = some ⟨.horizontal, .light, 3⟩ from rfl]
    simp
  refine ⟨drawBoxChar_ne_drawDashedLine _ _ _ _ _ _ _ _ _, ?_, hlen3⟩
  · exact (drawBoxChar_same_horizontal testState.metrics 0x2504
      (((0 : ℕ) : ℚ) * testState.metrics.width)
      (((0 : ℤ) : ℚ) * testState.metrics.height)
      (cellFillStyle testState (testCell 0x2504 0) 0 0)
      (if (testCell 0x2504 0).flags &&& CellFlags.FAINT ≠ 0 then 1/2 else 1)
      LineStyle.light rfl (by simp) (by simp)).1

/-- C2 counterexample: with a fractional viewportY of 5/2 and row y = 2,
the code fetches the row from the scrollback (y < viewportY holds) while
the claim formula fetches it from the buffer (y < floor of viewportY
fails), and the two lines differ. -/
theorem fetch_condition_claim_counterexample :
    fetchLine testBuffer (some testScrollback) 10 (5/2) 2 ≠
      fetchLineClaim testBuffer (some testScrollback) 10 (5/2) 2 := by
  unfold fetchLine fetchLineClaim testBuffer testScrollback
  norm_num [testCell]

/-- C6 counterexample: with zero dimensions but a mismatched canvas and a
visible cursor, render issues drawing commands (the resize background fill
and the cursor) and changes the canvas size, so it is not a no-op. -/
theorem zero_dims_claim_counterexample :
    (render zeroDimsState zeroDimsBuffer false 0 none 1).frame.allOps ≠ [] ∧
    (render zeroDimsState zeroDimsBuffer false 0 none 1).state.canvasWidth ≠
      zeroDimsState.canvasWidth := by
  constructor <;>
    norm_num [render, resizeStep, resize, viewportStep, cursorLineStep,
      selectionStep, hyperlinkStep, rowsStep, scrollbackLengthOf, renderCursor,
      clearDirty, Frame.allOps, zeroDimsState, zeroDimsBuffer, testState,
      testMetrics, testTheme] <;>
    simp


/-- Witness for the C1 theorem at the concrete rounded corner cell. -/
theorem renderCellText_rounded_uses_box_procedure_witness :
    (0x256d ≤ (testCell 0x256d 0).codepoint ∧
     (testCell 0x256d 0).codepoint ≤ 0x2570 ∧
     (testCell 0x256d 0).flags &&& CellFlags.INVISIBLE = 0) ∧
    ((renderCellText testState none (testCell 0x256d 0) 0 0 1).1 =
      drawBoxChar testState.metrics (testCell 0x256d 0).codepoint
        (((0 : ℕ) : ℚ) * testState.metrics.width)
        (((0 : ℤ) : ℚ) * testState.metrics.height)
        (cellFillStyle testState (testCell 0x256d 0) 0 0)
        (if (testCell 0x256d 0).flags &&& CellFlags.FAINT ≠ 0 then 1/2 else 1) ∧
     (renderCellText testState none (testCell 0x256d 0) 0 0 1).1.all
       DrawOp.isFillRect = true) :=
  ⟨⟨by decide, by decide, by decide⟩,
   renderCellText_rounded_uses_box_procedure testState none (testCell 0x256d 0)
     0 0 1 (by decide) (by decide) (by decide)⟩

/-- Witness for the C2 theorem at the fractional viewport 5/2 and row 2. -/
theorem fetchLine_eq_amended_witness :
    (0 : ℚ) ≤ 5/2 ∧
    fetchLine testBuffer (some testScrollback) 10 (5/2) 2 =
      fetchLineAmended testBuffer (some testScrollback) 10 (5/2) 2 :=
  ⟨by norm_num,
   fetchLine_eq_amended testBuffer (some testScrollback) 10 (5/2) 2 (by norm_num)⟩

/-- Witness for the C4 theorem at the concrete dashed cell U+2504. -/
theorem renderCellText_dashed_draws_single_solid_line_witness :
    (isDashedLine (testCell 0x2504 0).codepoint = true ∧
     (testCell 0x2504 0).flags &&& CellFlags.INVISIBLE = 0) ∧
    ((renderCellText testState none (testCell 0x2504 0) 0 0 1).1 =
      drawBoxChar testState.metrics (testCell 0x2504 0).codepoint
        (((0 : ℕ) : ℚ) * testState.metrics.width)
        (((0 : ℤ) : ℚ) * testState.metrics.height)
        (cellFillStyle testState (testCell 0x2504 0) 0 0)
        (if (testCell 0x2504 0).flags &&& CellFlags.FAINT ≠ 0 then 1/2 else 1) ∧
     (renderCellText testState none (testCell 0x2504 0) 0 0 1).1.length = 1 ∧
     (renderCellText testState none (testCell 0x2504 0) 0 0 1).1.all
       (spansFullAxis testState.metrics (((0 : ℕ) : ℚ) * testState.metrics.width)
         (((0 : ℤ) : ℚ) * testState.metrics.height)) = true) :=
  ⟨⟨by decide, by decide⟩,
   renderCellText_dashed_draws_single_solid_line testState none (testCell 0x2504 0)
     0 0 1 (by decide) (by decide)⟩

/-- Witness for the C5 theorem at a plain text cell with UNDERLINE set. -/
theorem renderCellText_underline_iff_text_path_witness :
    ((testCell 65 CellFlags.UNDERLINE).flags &&& CellFlags.UNDERLINE ≠ 0 ∧
     (testCell 65 CellFlags.UNDERLINE).flags &&& CellFlags.INVISIBLE = 0) ∧
    (renderCellText testState none (testCell 65 CellFlags.UNDERLINE) 0 0 1).1.any
      (isUnderlineStrokeAt (((0 : ℕ) : ℚ) * testState.metrics.width)
        (((0 : ℕ) : ℚ) * testState.metrics.width +
          testState.metrics.width * ((testCell 65 CellFlags.UNDERLINE).width : ℚ))
        (((0 : ℤ) : ℚ) * testState.metrics.height + testState.metrics.baseline + 2)) =
      !(isProceduralGlyph (effectiveCodepoint (testCell 65 CellFlags.UNDERLINE))) :=
  ⟨⟨by decide, by decide⟩,
   renderCellText_underline_iff_text_path testState none
     (testCell 65 CellFlags.UNDERLINE) 0 0 1 (by decide) (by decide)⟩

/-- Witness for the C6 theorem at the matched zero canvas and the zero
dimension buffer with a hidden cursor. -/
theorem render_zero_dims_amended_witness :
    (zeroDimsHiddenCursorBuffer.cols = 0 ∧ zeroDimsHiddenCursorBuffer.rows = 0 ∧
     zeroDimsMatchedState.canvasWidth = 0 ∧ zeroDimsMatchedState.canvasHeight = 0 ∧
     zeroDimsHiddenCursorBuffer.cursor.visible = false ∧
     (∀ y, zeroDimsHiddenCursorBuffer.getLine y = none)) ∧
    ((render zeroDimsMatchedState zeroDimsHiddenCursorBuffer false 0 none
        1).frame.allOps = [] ∧
     (render zeroDimsMatchedState zeroDimsHiddenCursorBuffer false 0 none
        1).state.canvasWidth = zeroDimsMatchedState.canvasWidth ∧
     (render zeroDimsMatchedState zeroDimsHiddenCursorBuffer false 0 none
        1).state.canvasHeight = zeroDimsMatchedState.canvasHeight) :=
  ⟨⟨rfl, rfl, rfl, rfl, rfl, fun _ => rfl⟩,
   render_zero_dims_amended zeroDimsMatchedState zeroDimsHiddenCursorBuffer false 0
     1 rfl rfl rfl rfl rfl (fun _ => rfl)⟩

/-- Witness for the C8 theorem at opacity 1, scrollback length 10, 24
visible rows and viewport 5. -/
theorem renderScrollbar_thumb_geometry_witness :
    ((0 : ℚ) < 1 ∧ (10 : ℕ) ≠ 0) ∧
    (∃ c,
      (renderScrollbar testState 5 10 24 1 1).getLast? =
        some (DrawOp.fillRect (testState.canvasWidth / testState.devicePixelRatio - 8 - 4)
          (specThumbTop 4 (testState.canvasHeight / testState.devicePixelRatio - 8)
            (specThumbHeight 24 10
              (testState.canvasHeight / testState.devicePixelRatio - 8)) 5 10)
          8
          (specThumbHeight 24 10
            (testState.canvasHeight / testState.devicePixelRatio - 8)) c 1) ∧
      (renderScrollbar testState 5 10 24 1 1).length = 3) :=
  ⟨⟨by norm_num, by decide⟩,
   renderScrollbar_thumb_geometry testState 5 10 24 1 1 (by norm_num) (by decide)⟩

/-- Witness for the C9 theorem at the unmapped diagonal U+2571. -/
theorem renderCellText_unmapped_box_draws_nothing_witness :
    (0x2500 ≤ (testCell 0x2571 0).codepoint ∧
     (testCell 0x2571 0).codepoint ≤ 0x257f ∧
     BOX_DRAWING_MAP (testCell 0x2571 0).codepoint = none) ∧
    (renderCellText testState none (testCell 0x2571 0) 0 0 1).1 = [] :=
  ⟨⟨by decide, by decide, by decide⟩,
   renderCellText_unmapped_box_draws_nothing testState none (testCell 0x2571 0)
     0 0 1 (by decide) (by decide) (by decide)⟩

end GhosttyWeb

